import Mathlib
/-!
Shallow embedding of the MessageFormat 2 AST layer (`src/parser/src/ast.rs`):
the node catalog, span derivation, numeric-literal decomposition and the
visitor dispatch protocol, together with theorems settling the spec claims.

Rust borrowed strings are modelled as `List Char`; byte offsets and byte
lengths are `Nat`.  Rust string slicing (`&s[a..b]`), which panics when an
index is out of bounds, not on a character boundary, or when `a > b`, is
modelled as an `Option`-returning function (`none` = panic).

Naming: identifiers are kept as in the source where possible.  The Rust types
`Annotation`, `PrivateUseAnnotation`, `ReservedAnnotation` and `Star` are
rendered here as `AnnotationNode`, `PrivateUseAnnotationNode`,
`ReservedAnnotationNode` and `StarKey` (the first three for lexical reasons,
the last because Mathlib already declares a root `Star`); the Rust field
`annotation` is rendered `annot`.
-/

/-- UTF-8 byte size of a character, as Rust's `char::len_utf8`. -/
def csize (c : Char) : Nat :=
  if c.toNat < 128 then 1
  else if c.toNat < 2048 then 2
  else if c.toNat < 65536 then 3
  else 4

/-- A Rust `&str`: a sequence of characters (the byte-level view is
recovered through `csize`). -/
abbrev Str := List Char

/-- UTF-8 byte length of a string, as Rust's `str::len`. -/
def utf8Len (s : Str) : Nat := (s.map csize).sum

/-- Modelled from the spec: the external position type (`crate::util::Location`,
not under `src/`) is "a monotonic source-offset type" constructible "from a raw
offset" (spec section 6); we take it to be the raw byte offset itself — a `Nat`
— so that `Location::inner()` is the identity, and likewise render the compact
byte length `crate::util::LengthShort` as `Nat`.  `Location.dummy` is the
sentinel "empty/dummy" position: its concrete value is irrelevant to every
claim; we fix the u32 maximum. -/
def Location.dummy : Nat := 4294967295

/-- Modelled from the spec: advancing a position past a character
("advance by": given a position and a character or string, produce the
position immediately past it, spec section 6). -/
def advChar (l : Nat) (c : Char) : Nat := l + csize c

/-- Modelled from the spec: advancing a position past a string. -/
def advStr (l : Nat) (s : Str) : Nat := l + utf8Len s

/-- Modelled from the spec: the external span type, "a half-open `start..end`
range over positions, constructible from any two positions, with
`start`/`end` accessors" (spec section 6).  The Rust field `end` is rendered
`stop` (`end` is a Lean keyword). -/
structure Span where
  start : Nat
  stop : Nat
deriving DecidableEq, Repr

/-- Drop exactly `n` bytes from the front of a string; `none` when `n`
overruns the string or falls inside a character (Rust panics there). -/
def dropBytes : Str → Nat → Option Str
  | s, 0 => some s
  | [], _ + 1 => none
  | c :: rest, n + 1 =>
    if csize c ≤ n + 1 then dropBytes rest (n + 1 - csize c) else none

/-- Take exactly `n` bytes from the front of a string; `none` when `n`
overruns the string or falls inside a character (Rust panics there). -/
def takeBytes : Str → Nat → Option Str
  | _, 0 => some []
  | [], _ + 1 => none
  | c :: rest, n + 1 =>
    if csize c ≤ n + 1 then (takeBytes rest (n + 1 - csize c)).map (c :: ·)
    else none

/-- Rust `&s[a..b]` byte slicing: `none` models the panic (when `a > b`,
an index is out of bounds, or a bound is not a character boundary). -/
def sliceBytes (s : Str) (a b : Nat) : Option Str :=
  if a ≤ b then (dropBytes s a).bind (fun t => takeBytes t (b - a)) else none

/-- `ast.rs` `Text`: a start position plus a borrowed run of literal
characters. -/
structure Text where
  start : Nat
  content : Str
deriving DecidableEq, Repr

/-- `ast.rs` `Escape`: a start position plus the escaped character. -/
structure Escape where
  start : Nat
  escaped_char : Char
deriving DecidableEq, Repr

/-- `ast.rs` `Variable`: a stored span plus the borrowed name. -/
structure Variable where
  span : Span
  name : Str
deriving DecidableEq, Repr

/-- `ast.rs` `Identifier`: start position, optional namespace, name. -/
structure Identifier where
  start : Nat
  namespace_ : Option Str
  name : Str
deriving DecidableEq, Repr

/-- `ast.rs` `Star` (the wildcard key), renamed because Mathlib declares a
root `Star`. -/
structure StarKey where
  start : Nat
deriving DecidableEq, Repr

/-- `ast.rs` `ExponentSign`. -/
inductive ExponentSign where
  | plus
  | minus
  | none
deriving DecidableEq, Repr

/-- `ast.rs` `Number`: start position, full raw literal slice, negativity
flag and the three structural lengths. -/
structure Number where
  start : Nat
  raw : Str
  is_negative : Bool
  integral_len : Nat
  fractional_len : Option Nat
  exponent_len : Option (ExponentSign × Nat)
deriving DecidableEq, Repr

/-- `ast.rs` `QuotedPart` (wrapper enum): `Text | Escape`. -/
inductive QuotedPart where
  | text (t : Text)
  | escape (e : Escape)
deriving DecidableEq, Repr

/-- `ast.rs` `Quoted`: a stored span plus the quoted parts. -/
structure Quoted where
  span : Span
  parts : List QuotedPart
deriving DecidableEq, Repr

/-- `ast.rs` `Literal` (wrapper enum): `Quoted | Text | Number`. -/
inductive Literal where
  | quoted (q : Quoted)
  | text (t : Text)
  | number (n : Number)
deriving DecidableEq, Repr

/-- `ast.rs` `LiteralOrVariable` (wrapper enum). -/
inductive LiteralOrVariable where
  | literal (l : Literal)
  | variable_ (v : Variable)
deriving DecidableEq, Repr

/-- `ast.rs` `FnOrMarkupOption`: a key/value pair. -/
structure FnOrMarkupOption where
  key : Identifier
  value : LiteralOrVariable
deriving DecidableEq, Repr

/-- `ast.rs` `Attribute`: a stored span, key and optional value. -/
structure Attribute where
  span : Span
  key : Identifier
  value : Option LiteralOrVariable
deriving DecidableEq, Repr

/-- `ast.rs` `Function`: start position, identifier, options (renamed: Lean
reserves `Function`-namespace field notation). -/
structure FunctionNode where
  start : Nat
  id : Identifier
  options : List FnOrMarkupOption
deriving DecidableEq, Repr

/-- `ast.rs` `ReservedBodyPart` (wrapper enum): `Text | Escape | Quoted`. -/
inductive ReservedBodyPart where
  | text (t : Text)
  | escape (e : Escape)
  | quoted (q : Quoted)
deriving DecidableEq, Repr

/-- `ast.rs` `PrivateUseAnnotation`: start position, sigil, reserved body. -/
structure PrivateUseAnnotationNode where
  start : Nat
  sigil : Char
  body : List ReservedBodyPart
deriving DecidableEq, Repr

/-- `ast.rs` `ReservedAnnotation`: start position, sigil, reserved body. -/
structure ReservedAnnotationNode where
  start : Nat
  sigil : Char
  body : List ReservedBodyPart
deriving DecidableEq, Repr

/-- `ast.rs` `Annotation` (wrapper enum):
`Function | PrivateUseAnnotation | ReservedAnnotation`. -/
inductive AnnotationNode where
  | function (f : FunctionNode)
  | privateUse (p : PrivateUseAnnotationNode)
  | reserved (r : ReservedAnnotationNode)
deriving DecidableEq, Repr

/-- `ast.rs` `LiteralExpression`: stored span, literal, optional
`annotation` (here `annot`), attributes. -/
structure LiteralExpression where
  span : Span
  literal : Literal
  annot : Option AnnotationNode
  attributes : List Attribute
deriving DecidableEq, Repr

/-- `ast.rs` `VariableExpression`: stored span, variable, optional
`annotation` (here `annot`), attributes. -/
structure VariableExpression where
  span : Span
  variable_ : Variable
  annot : Option AnnotationNode
  attributes : List Attribute
deriving DecidableEq, Repr

/-- `ast.rs` `AnnotationExpression`: stored span, `annotation` (here
`annot`), attributes. -/
structure AnnotationExpression where
  span : Span
  annot : AnnotationNode
  attributes : List Attribute
deriving DecidableEq, Repr

/-- `ast.rs` `Expression` (wrapper enum). -/
inductive Expression where
  | literalExpression (e : LiteralExpression)
  | variableExpression (e : VariableExpression)
  | annotationExpression (e : AnnotationExpression)
deriving DecidableEq, Repr

/-- `ast.rs` `MarkupKind`. -/
inductive MarkupKind where
  | open_
  | standalone
  | close
deriving DecidableEq, Repr

/-- `ast.rs` `Markup`: stored span, kind, identifier, options, attributes. -/
structure Markup where
  span : Span
  kind : MarkupKind
  id : Identifier
  options : List FnOrMarkupOption
  attributes : List Attribute
deriving DecidableEq, Repr

/-- `ast.rs` `PatternPart` (wrapper enum): `Text | Escape | Expression |
Markup`. -/
inductive PatternPart where
  | text (t : Text)
  | escape (e : Escape)
  | expression (e : Expression)
  | markup (m : Markup)
deriving DecidableEq, Repr

/-- `ast.rs` `Pattern`: the ordered parts of a simple message body. -/
structure Pattern where
  parts : List PatternPart
deriving DecidableEq, Repr

/-- `ast.rs` `QuotedPattern`: stored span plus a pattern. -/
structure QuotedPattern where
  span : Span
  pattern : Pattern
deriving DecidableEq, Repr

/-- `ast.rs` `Key` (wrapper enum): `Literal | Star`. -/
inductive Key where
  | literal (l : Literal)
  | star (s : StarKey)
deriving DecidableEq, Repr

/-- `ast.rs` `Variant`: keys plus a quoted pattern. -/
structure Variant where
  keys : List Key
  pattern : QuotedPattern
deriving DecidableEq, Repr

/-- `ast.rs` `Matcher`: start position, selectors, variants. -/
structure Matcher where
  start : Nat
  selectors : List Expression
  variants : List Variant
deriving DecidableEq, Repr

/-- `ast.rs` `ComplexMessageBody` (wrapper enum): `QuotedPattern | Matcher`. -/
inductive ComplexMessageBody where
  | quotedPattern (q : QuotedPattern)
  | matcher (m : Matcher)
deriving DecidableEq, Repr

/-- `ast.rs` `InputDeclaration`: start position plus a variable expression. -/
structure InputDeclaration where
  start : Nat
  expression : VariableExpression
deriving DecidableEq, Repr

/-- `ast.rs` `LocalDeclaration`: start position, variable, initializer. -/
structure LocalDeclaration where
  start : Nat
  variable_ : Variable
  expression : Expression
deriving DecidableEq, Repr

/-- `ast.rs` `ReservedStatement`: start position, name, reserved body,
expressions. -/
structure ReservedStatement where
  start : Nat
  name : Str
  body : List ReservedBodyPart
  expressions : List Expression
deriving DecidableEq, Repr

/-- `ast.rs` `Declaration` (wrapper enum). -/
inductive Declaration where
  | input (d : InputDeclaration)
  | local_ (d : LocalDeclaration)
  | reservedStatement (d : ReservedStatement)
deriving DecidableEq, Repr

/-- `ast.rs` `ComplexMessage`: declarations plus one body. -/
structure ComplexMessage where
  declarations : List Declaration
  body : ComplexMessageBody
deriving DecidableEq, Repr

/-- `ast.rs` `Message`: `Simple(Pattern) | Complex(ComplexMessage)`. -/
inductive Message where
  | simple (p : Pattern)
  | complex (c : ComplexMessage)
deriving DecidableEq, Repr

/-- `impl Spanned for Text`: `self.start .. self.start + self.content`. -/
def Text.span (t : Text) : Span :=
  ⟨t.start, advStr t.start t.content⟩

/-- `impl Spanned for Escape`:
`self.start .. self.start + '\\' + self.escaped_char`. -/
def Escape.span (e : Escape) : Span :=
  ⟨e.start, advChar (advChar e.start '\\') e.escaped_char⟩

/-- `impl Spanned for Identifier`: the end is the start advanced past
`namespace ':'` (when a namespace is present) and the name. -/
def Identifier.span (i : Identifier) : Span :=
  ⟨i.start,
    advStr
      (match i.namespace_ with
        | some ns => advChar (advStr i.start ns) ':'
        | Option.none => i.start)
      i.name⟩

/-- `impl Spanned for Star`: `self.start .. self.start + '*'`. -/
def StarKey.span (s : StarKey) : Span :=
  ⟨s.start, advChar s.start '*'⟩

/-- `impl Spanned for Number`: `self.start .. self.start + self.raw`. -/
def Number.span (n : Number) : Span :=
  ⟨n.start, advStr n.start n.raw⟩

/-- `impl Spanned for QuotedPart` (from `ast_enum!`): delegate to the
active variant. -/
def QuotedPart.span : QuotedPart → Span
  | .text t => t.span
  | .escape e => e.span

/-- `impl Spanned for Literal` (from `ast_enum!`): delegate to the active
variant (`Quoted` has a stored span, read off by its field projection). -/
def Literal.span : Literal → Span
  | .quoted q => q.span
  | .text t => t.span
  | .number n => n.span

/-- `impl Spanned for LiteralOrVariable` (from `ast_enum!`). -/
def LiteralOrVariable.span : LiteralOrVariable → Span
  | .literal l => l.span
  | .variable_ v => v.span

/-- `impl Spanned for FnOrMarkupOption`: `key start .. value end`. -/
def FnOrMarkupOption.span (o : FnOrMarkupOption) : Span :=
  ⟨o.key.span.start, o.value.span.stop⟩

/-- `impl Spanned for Function`: `self.start ..` the last option's end, or
the identifier's end when there are no options. -/
def FunctionNode.span (f : FunctionNode) : Span :=
  ⟨f.start,
    match f.options.getLast? with
    | some last => last.span.stop
    | Option.none => f.id.span.stop⟩

/-- `impl Spanned for ReservedBodyPart` (from `ast_enum!`). -/
def ReservedBodyPart.span : ReservedBodyPart → Span
  | .text t => t.span
  | .escape e => e.span
  | .quoted q => q.span

/-- `impl Spanned for PrivateUseAnnotation`: `self.start ..` the last body
part's end, or `self.start + self.sigil` when the body is empty. -/
def PrivateUseAnnotationNode.span (p : PrivateUseAnnotationNode) : Span :=
  ⟨p.start,
    match p.body.getLast? with
    | some last => last.span.stop
    | Option.none => advChar p.start p.sigil⟩

/-- `impl Spanned for ReservedAnnotation`: same rule as the private-use
annotation. -/
def ReservedAnnotationNode.span (r : ReservedAnnotationNode) : Span :=
  ⟨r.start,
    match r.body.getLast? with
    | some last => last.span.stop
    | Option.none => advChar r.start r.sigil⟩

/-- `impl Spanned for Annotation` (from `ast_enum!`). -/
def AnnotationNode.span : AnnotationNode → Span
  | .function f => f.span
  | .privateUse p => p.span
  | .reserved r => r.span

/-- `impl Spanned for Expression` (from `ast_enum!`): all three variants
carry stored spans. -/
def Expression.span : Expression → Span
  | .literalExpression e => e.span
  | .variableExpression e => e.span
  | .annotationExpression e => e.span

/-- `impl Spanned for PatternPart` (from `ast_enum!`). -/
def PatternPart.span : PatternPart → Span
  | .text t => t.span
  | .escape e => e.span
  | .expression e => e.span
  | .markup m => m.span

/-- `impl Spanned for Pattern`: first part's start to last part's end, or
the dummy sentinel twice when the parts list is empty. -/
def Pattern.span (p : Pattern) : Span :=
  match p.parts.head?, p.parts.getLast? with
  | some first, some last => ⟨first.span.start, last.span.stop⟩
  | _, _ => ⟨Location.dummy, Location.dummy⟩

/-- `impl Spanned for Key` (from `ast_enum!`). -/
def Key.span : Key → Span
  | .literal l => l.span
  | .star s => s.span

/-- `impl Spanned for Variant`: first key's start (or the quoted pattern's
start when there are no keys) to the quoted pattern's end. -/
def Variant.span (v : Variant) : Span :=
  ⟨match v.keys.head? with
    | some first => first.span.start
    | Option.none => v.pattern.span.start,
    v.pattern.span.stop⟩

/-- `impl Spanned for Matcher`: `self.start ..` the last variant's end,
else the last selector's end, else `self.start + ".match"`. -/
def Matcher.span (m : Matcher) : Span :=
  ⟨m.start,
    match m.variants.getLast? with
    | some last => last.span.stop
    | Option.none =>
      match m.selectors.getLast? with
      | some last => last.span.stop
      | Option.none => advStr m.start ['.', 'm', 'a', 't', 'c', 'h']⟩

/-- `impl Spanned for ComplexMessageBody` (from `ast_enum!`). -/
def ComplexMessageBody.span : ComplexMessageBody → Span
  | .quotedPattern q => q.span
  | .matcher m => m.span

/-- `impl Spanned for InputDeclaration`: `self.start .. expression end`. -/
def InputDeclaration.span (d : InputDeclaration) : Span :=
  ⟨d.start, d.expression.span.stop⟩

/-- `impl Spanned for LocalDeclaration`: `self.start .. expression end`. -/
def LocalDeclaration.span (d : LocalDeclaration) : Span :=
  ⟨d.start, d.expression.span.stop⟩

/-- `impl Spanned for ReservedStatement`: `self.start ..` the last
expression's end, else the last body part's end, else
`self.start + '.' + self.name`. -/
def ReservedStatement.span (r : ReservedStatement) : Span :=
  ⟨r.start,
    match r.expressions.getLast? with
    | some last => last.span.stop
    | Option.none =>
      match r.body.getLast? with
      | some last => last.span.stop
      | Option.none => advStr (advChar r.start '.') r.name⟩

/-- `impl Spanned for Declaration` (from `ast_enum!`). -/
def Declaration.span : Declaration → Span
  | .input d => d.span
  | .local_ d => d.span
  | .reservedStatement d => d.span

/-- `impl Spanned for ComplexMessage`: start is the first declaration's
start `min` the body's start (or the body's start alone); end is the last
declaration's end `max` the body's end (or the body's end alone). -/
def ComplexMessage.span (c : ComplexMessage) : Span :=
  ⟨match c.declarations.head? with
    | some first => Nat.min first.span.start c.body.span.start
    | Option.none => c.body.span.start,
    match c.declarations.getLast? with
    | some last => Nat.max last.span.stop c.body.span.stop
    | Option.none => c.body.span.stop⟩

/-- `impl Spanned for Message`: delegate to the active variant. -/
def Message.span : Message → Span
  | .simple p => p.span
  | .complex c => c.span

/-- `Number::slice`: `&self.raw[span.start.inner() as usize..span.end.inner()
as usize]` — note the raw slice is indexed with the span's own offsets,
with nothing subtracted.  `none` models the Rust panic. -/
def Number.slice (n : Number) (sp : Span) : Option Str :=
  sliceBytes n.raw sp.start sp.stop

/-- `Number::integral_start`: one character past the sign when negative. -/
def Number.integral_start (n : Number) : Nat :=
  if n.is_negative then advChar n.start '-' else n.start

/-- `Number::integral_end`. -/
def Number.integral_end (n : Number) : Nat :=
  n.integral_start + n.integral_len

/-- `Number::integral_span`. -/
def Number.integral_span (n : Number) : Span :=
  ⟨n.integral_start, n.integral_end⟩

/-- `Number::integral_part`: the raw slice at the integral span (`none`
models a panic inside `slice`). -/
def Number.integral_part (n : Number) : Option Str :=
  n.slice n.integral_span

/-- `Number::fractional_span`: starts one character past the integral end
(skipping the decimal point) and runs for the fractional length. -/
def Number.fractional_span (n : Number) : Option Span :=
  n.fractional_len.map fun fractional_len =>
    let start := advChar n.integral_end '.'
    ⟨start, start + fractional_len⟩

/-- `Number::fractional_part`: `self.fractional_span().map(|s| self.slice(s))`.
The outer `none` models a panic inside `slice`; `some Option.none` is Rust's
`None` (no fractional part). -/
def Number.fractional_part (n : Number) : Option (Option Str) :=
  match n.fractional_span with
  | Option.none => some Option.none
  | some sp => (n.slice sp).map some

/-- `Number::exponent_span`: past the fractional (or integral) span, past
the exponent marker, and past one sign character when the sign is explicit. -/
def Number.exponent_span (n : Number) : Option Span :=
  n.exponent_len.map fun (sign, exponent_len) =>
    let start := n.integral_end
    let start :=
      match n.fractional_len with
      | some fractional_len => advChar start '.' + fractional_len
      | Option.none => start
    let start := advChar start 'e'
    let start :=
      match sign with
      | ExponentSign.none => start
      | _ => advChar start '-'
    ⟨start, start + exponent_len⟩

/-- `Number::exponent_part`: the recorded sign paired with the raw slice at
the exponent span (the `unwrap` on `exponent_len` is safe exactly when the
span is present).  Outer `none` models a panic; `some Option.none` is Rust's
`None`. -/
def Number.exponent_part (n : Number) : Option (Option (ExponentSign × Str)) :=
  match n.exponent_span, n.exponent_len with
  | some sp, some (sign, _) => (n.slice sp).map (fun s => some (sign, s))
  | Option.none, _ => some Option.none
  | some _, Option.none => Option.none

/-- The spec's round-trip raw literal `"-12.34e-5"`. -/
def rawNeg1234e5 : Str := ['-', '1', '2', '.', '3', '4', 'e', '-', '5']

/-- A visitor callback invocation: one constructor per `visit_*` method that
`ast.rs` dispatches to, carrying the node passed to the callback.  (Rust
`visit_annotation` / `visit_private_use_annotation` / `visit_reserved_annotation`
/ `visit_star` appear as `visitAnnotationNode` / `visitPrivateUseAnnotationNode`
/ `visitReservedAnnotationNode` / `visitStarKey`.) -/
inductive Event where
  | visitPattern (p : Pattern)
  | visitPatternPart (p : PatternPart)
  | visitText (t : Text)
  | visitEscape (e : Escape)
  | visitExpression (e : Expression)
  | visitLiteralExpression (e : LiteralExpression)
  | visitVariableExpression (e : VariableExpression)
  | visitAnnotationExpression (e : AnnotationExpression)
  | visitVariable (v : Variable)
  | visitAnnotationNode (a : AnnotationNode)
  | visitIdentifier (i : Identifier)
  | visitFunction (f : FunctionNode)
  | visitFnOrMarkupOption (o : FnOrMarkupOption)
  | visitAttribute (a : Attribute)
  | visitLiteralOrVariable (l : LiteralOrVariable)
  | visitPrivateUseAnnotationNode (p : PrivateUseAnnotationNode)
  | visitReservedAnnotationNode (r : ReservedAnnotationNode)
  | visitReservedBodyPart (r : ReservedBodyPart)
  | visitLiteral (l : Literal)
  | visitQuoted (q : Quoted)
  | visitQuotedPart (q : QuotedPart)
  | visitNumber (n : Number)
  | visitMarkup (m : Markup)
  | visitComplexMessage (c : ComplexMessage)
  | visitDeclaration (d : Declaration)
  | visitInputDeclaration (d : InputDeclaration)
  | visitLocalDeclaration (d : LocalDeclaration)
  | visitReservedStatement (r : ReservedStatement)
  | visitComplexMessageBody (b : ComplexMessageBody)
  | visitQuotedPattern (q : QuotedPattern)
  | visitMatcher (m : Matcher)
  | visitVariant (v : Variant)
  | visitKey (k : Key)
  | visitStarKey (s : StarKey)
deriving DecidableEq, Repr

/-- `Text::apply_visitor` invokes `visitor.visit_text(self)`. -/
def Text.applyVisitorEvent (t : Text) : Event := .visitText t

/-- `Escape::apply_visitor` invokes `visitor.visit_escape(self)`. -/
def Escape.applyVisitorEvent (e : Escape) : Event := .visitEscape e

/-- `Variable::apply_visitor` invokes `visitor.visit_variable(self)`. -/
def Variable.applyVisitorEvent (v : Variable) : Event := .visitVariable v

/-- `Identifier::apply_visitor` invokes `visitor.visit_identifier(self)`. -/
def Identifier.applyVisitorEvent (i : Identifier) : Event := .visitIdentifier i

/-- `Star::apply_visitor` invokes `visitor.visit_star(self)`. -/
def StarKey.applyVisitorEvent (s : StarKey) : Event := .visitStarKey s

/-- `Number::apply_visitor` invokes `visitor.visit_number(self)`. -/
def Number.applyVisitorEvent (n : Number) : Event := .visitNumber n

/-- `QuotedPart::apply_visitor` (from `ast_enum!`) invokes
`visitor.visit_quoted_part(self)` — the wrapper's own callback, on the
wrapper value itself. -/
def QuotedPart.applyVisitorEvent (q : QuotedPart) : Event := .visitQuotedPart q

/-- `Quoted::apply_visitor` invokes `visitor.visit_quoted(self)`. -/
def Quoted.applyVisitorEvent (q : Quoted) : Event := .visitQuoted q

/-- `Literal::apply_visitor` (from `ast_enum!`) invokes
`visitor.visit_literal(self)`. -/
def Literal.applyVisitorEvent (l : Literal) : Event := .visitLiteral l

/-- `LiteralOrVariable::apply_visitor` (from `ast_enum!`) invokes
`visitor.visit_literal_or_variable(self)`. -/
def LiteralOrVariable.applyVisitorEvent (l : LiteralOrVariable) : Event :=
  .visitLiteralOrVariable l

/-- `FnOrMarkupOption::apply_visitor` invokes
`visitor.visit_fn_or_markup_option(self)`. -/
def FnOrMarkupOption.applyVisitorEvent (o : FnOrMarkupOption) : Event :=
  .visitFnOrMarkupOption o

/-- `Attribute::apply_visitor` invokes `visitor.visit_attribute(self)`. -/
def Attribute.applyVisitorEvent (a : Attribute) : Event := .visitAttribute a

/-- `Function::apply_visitor` invokes `visitor.visit_function(self)`. -/
def FunctionNode.applyVisitorEvent (f : FunctionNode) : Event := .visitFunction f

/-- `ReservedBodyPart::apply_visitor` (from `ast_enum!`) invokes
`visitor.visit_reserved_body_part(self)`. -/
def ReservedBodyPart.applyVisitorEvent (r : ReservedBodyPart) : Event :=
  .visitReservedBodyPart r

/-- `PrivateUseAnnotation::apply_visitor` invokes
`visitor.visit_private_use_annotation(self)`. -/
def PrivateUseAnnotationNode.applyVisitorEvent
    (p : PrivateUseAnnotationNode) : Event :=
  .visitPrivateUseAnnotationNode p

/-- `ReservedAnnotation::apply_visitor` invokes
`visitor.visit_reserved_annotation(self)`. -/
def ReservedAnnotationNode.applyVisitorEvent
    (r : ReservedAnnotationNode) : Event :=
  .visitReservedAnnotationNode r

/-- `Annotation::apply_visitor` (from `ast_enum!`) invokes
`visitor.visit_annotation(self)`. -/
def AnnotationNode.applyVisitorEvent (a : AnnotationNode) : Event :=
  .visitAnnotationNode a

/-- `LiteralExpression::apply_visitor` invokes
`visitor.visit_literal_expression(self)`. -/
def LiteralExpression.applyVisitorEvent (e : LiteralExpression) : Event :=
  .visitLiteralExpression e

/-- `VariableExpression::apply_visitor` invokes
`visitor.visit_variable_expression(self)`. -/
def VariableExpression.applyVisitorEvent (e : VariableExpression) : Event :=
  .visitVariableExpression e

/-- `AnnotationExpression::apply_visitor` invokes
`visitor.visit_annotation_expression(self)`. -/
def AnnotationExpression.applyVisitorEvent (e : AnnotationExpression) : Event :=
  .visitAnnotationExpression e

/-- `Expression::apply_visitor` (from `ast_enum!`) invokes
`visitor.visit_expression(self)`. -/
def Expression.applyVisitorEvent (e : Expression) : Event := .visitExpression e

/-- `Markup::apply_visitor` invokes `visitor.visit_markup(self)`. -/
def Markup.applyVisitorEvent (m : Markup) : Event := .visitMarkup m

/-- `PatternPart::apply_visitor` (from `ast_enum!`) invokes
`visitor.visit_pattern_part(self)`. -/
def PatternPart.applyVisitorEvent (p : PatternPart) : Event := .visitPatternPart p

/-- `Pattern::apply_visitor` invokes `visitor.visit_pattern(self)`. -/
def Pattern.applyVisitorEvent (p : Pattern) : Event := .visitPattern p

/-- `QuotedPattern::apply_visitor` invokes
`visitor.visit_quoted_pattern(self)`. -/
def QuotedPattern.applyVisitorEvent (q : QuotedPattern) : Event :=
  .visitQuotedPattern q

/-- `Key::apply_visitor` (from `ast_enum!`) invokes `visitor.visit_key(self)`. -/
def Key.applyVisitorEvent (k : Key) : Event := .visitKey k

/-- `Variant::apply_visitor` invokes `visitor.visit_variant(self)`. -/
def Variant.applyVisitorEvent (v : Variant) : Event := .visitVariant v

/-- `Matcher::apply_visitor` invokes `visitor.visit_matcher(self)`. -/
def Matcher.applyVisitorEvent (m : Matcher) : Event := .visitMatcher m

/-- `ComplexMessageBody::apply_visitor` (from `ast_enum!`) invokes
`visitor.visit_complex_message_body(self)`. -/
def ComplexMessageBody.applyVisitorEvent (b : ComplexMessageBody) : Event :=
  .visitComplexMessageBody b

/-- `InputDeclaration::apply_visitor` invokes
`visitor.visit_input_declaration(self)`. -/
def InputDeclaration.applyVisitorEvent (d : InputDeclaration) : Event :=
  .visitInputDeclaration d

/-- `LocalDeclaration::apply_visitor` invokes
`visitor.visit_local_declaration(self)`. -/
def LocalDeclaration.applyVisitorEvent (d : LocalDeclaration) : Event :=
  .visitLocalDeclaration d

/-- `ReservedStatement::apply_visitor` invokes
`visitor.visit_reserved_statement(self)`. -/
def ReservedStatement.applyVisitorEvent (r : ReservedStatement) : Event :=
  .visitReservedStatement r

/-- `Declaration::apply_visitor` (from `ast_enum!`) invokes
`visitor.visit_declaration(self)`. -/
def Declaration.applyVisitorEvent (d : Declaration) : Event := .visitDeclaration d

/-- `ComplexMessage::apply_visitor` invokes
`visitor.visit_complex_message(self)`. -/
def ComplexMessage.applyVisitorEvent (c : ComplexMessage) : Event :=
  .visitComplexMessage c

/-- `PatternPart::apply_visitor_to_children` (from `ast_enum!`) calls the
active variant's `apply_visitor`, which fires exactly that variant's own
callback: the list of callbacks fired directly by `apply_visitor_to_children`. -/
def PatternPart.childEvents : PatternPart → List Event
  | .text t => [t.applyVisitorEvent]
  | .escape e => [e.applyVisitorEvent]
  | .expression e => [e.applyVisitorEvent]
  | .markup m => [m.applyVisitorEvent]

/-- `Expression::apply_visitor_to_children` (from `ast_enum!`). -/
def Expression.childEvents : Expression → List Event
  | .literalExpression e => [e.applyVisitorEvent]
  | .variableExpression e => [e.applyVisitorEvent]
  | .annotationExpression e => [e.applyVisitorEvent]

/-- `Annotation::apply_visitor_to_children` (from `ast_enum!`). -/
def AnnotationNode.childEvents : AnnotationNode → List Event
  | .function f => [f.applyVisitorEvent]
  | .privateUse p => [p.applyVisitorEvent]
  | .reserved r => [r.applyVisitorEvent]

/-- `LiteralOrVariable::apply_visitor_to_children` (from `ast_enum!`). -/
def LiteralOrVariable.childEvents : LiteralOrVariable → List Event
  | .literal l => [l.applyVisitorEvent]
  | .variable_ v => [v.applyVisitorEvent]

/-- `ReservedBodyPart::apply_visitor_to_children` (from `ast_enum!`). -/
def ReservedBodyPart.childEvents : ReservedBodyPart → List Event
  | .text t => [t.applyVisitorEvent]
  | .escape e => [e.applyVisitorEvent]
  | .quoted q => [q.applyVisitorEvent]

/-- `Literal::apply_visitor_to_children` (from `ast_enum!`). -/
def Literal.childEvents : Literal → List Event
  | .quoted q => [q.applyVisitorEvent]
  | .text t => [t.applyVisitorEvent]
  | .number n => [n.applyVisitorEvent]

/-- `QuotedPart::apply_visitor_to_children` (from `ast_enum!`). -/
def QuotedPart.childEvents : QuotedPart → List Event
  | .text t => [t.applyVisitorEvent]
  | .escape e => [e.applyVisitorEvent]

/-- `ComplexMessageBody::apply_visitor_to_children` (from `ast_enum!`). -/
def ComplexMessageBody.childEvents : ComplexMessageBody → List Event
  | .quotedPattern q => [q.applyVisitorEvent]
  | .matcher m => [m.applyVisitorEvent]

/-- `Declaration::apply_visitor_to_children` (from `ast_enum!`). -/
def Declaration.childEvents : Declaration → List Event
  | .input d => [d.applyVisitorEvent]
  | .local_ d => [d.applyVisitorEvent]
  | .reservedStatement d => [d.applyVisitorEvent]

/-- `Key::apply_visitor_to_children` (from `ast_enum!`). -/
def Key.childEvents : Key → List Event
  | .literal l => [l.applyVisitorEvent]
  | .star s => [s.applyVisitorEvent]

/-- The callback sequence produced by the claim-C5 driver — the visitor
whose every callback records its event and then calls
`apply_visitor_to_children` on the received node — when the traversal is
started with `Text::apply_visitor` (a leaf: no children). -/
def Text.trace (t : Text) : List Event := [t.applyVisitorEvent]

/-- C5-driver trace from `Escape::apply_visitor` (leaf). -/
def Escape.trace (e : Escape) : List Event := [e.applyVisitorEvent]

/-- C5-driver trace from `Variable::apply_visitor` (leaf). -/
def Variable.trace (v : Variable) : List Event := [v.applyVisitorEvent]

/-- C5-driver trace from `Identifier::apply_visitor` (leaf). -/
def Identifier.trace (i : Identifier) : List Event := [i.applyVisitorEvent]

/-- C5-driver trace from `Star::apply_visitor` (leaf). -/
def StarKey.trace (s : StarKey) : List Event := [s.applyVisitorEvent]

/-- C5-driver trace from `Number::apply_visitor` (leaf). -/
def Number.trace (n : Number) : List Event := [n.applyVisitorEvent]

/-- C5-driver trace from `QuotedPart::apply_visitor`: the wrapper's own
callback fires, then its `apply_visitor_to_children` runs the active
variant's `apply_visitor`. -/
def QuotedPart.trace (q : QuotedPart) : List Event :=
  q.applyVisitorEvent ::
    match q with
    | .text t => t.trace
    | .escape e => e.trace

/-- C5-driver trace from `Quoted::apply_visitor`: children are the parts,
in order. -/
def Quoted.trace (q : Quoted) : List Event :=
  q.applyVisitorEvent :: (q.parts.map QuotedPart.trace).flatten

/-- C5-driver trace from `Literal::apply_visitor` (wrapper). -/
def Literal.trace (l : Literal) : List Event :=
  l.applyVisitorEvent ::
    match l with
    | .quoted q => q.trace
    | .text t => t.trace
    | .number n => n.trace

/-- C5-driver trace from `LiteralOrVariable::apply_visitor` (wrapper). -/
def LiteralOrVariable.trace (l : LiteralOrVariable) : List Event :=
  l.applyVisitorEvent ::
    match l with
    | .literal v => v.trace
    | .variable_ v => v.trace

/-- C5-driver trace from `FnOrMarkupOption::apply_visitor`: children are
the key then the value. -/
def FnOrMarkupOption.trace (o : FnOrMarkupOption) : List Event :=
  o.applyVisitorEvent :: (o.key.trace ++ o.value.trace)

/-- C5-driver trace from `Attribute::apply_visitor`: children are the key
then the optional value. -/
def Attribute.trace (a : Attribute) : List Event :=
  a.applyVisitorEvent ::
    (a.key.trace ++
      match a.value with
      | some v => v.trace
      | Option.none => [])

/-- C5-driver trace from `Function::apply_visitor`: children are the
identifier then the options. -/
def FunctionNode.trace (f : FunctionNode) : List Event :=
  f.applyVisitorEvent ::
    (f.id.trace ++ (f.options.map FnOrMarkupOption.trace).flatten)

/-- C5-driver trace from `ReservedBodyPart::apply_visitor` (wrapper). -/
def ReservedBodyPart.trace (r : ReservedBodyPart) : List Event :=
  r.applyVisitorEvent ::
    match r with
    | .text t => t.trace
    | .escape e => e.trace
    | .quoted q => q.trace

/-- C5-driver trace from `PrivateUseAnnotation::apply_visitor`: children
are the body parts. -/
def PrivateUseAnnotationNode.trace (p : PrivateUseAnnotationNode) : List Event :=
  p.applyVisitorEvent :: (p.body.map ReservedBodyPart.trace).flatten

/-- C5-driver trace from `ReservedAnnotation::apply_visitor`: children are
the body parts. -/
def ReservedAnnotationNode.trace (r : ReservedAnnotationNode) : List Event :=
  r.applyVisitorEvent :: (r.body.map ReservedBodyPart.trace).flatten

/-- C5-driver trace from `Annotation::apply_visitor` (wrapper). -/
def AnnotationNode.trace (a : AnnotationNode) : List Event :=
  a.applyVisitorEvent ::
    match a with
    | .function f => f.trace
    | .privateUse p => p.trace
    | .reserved r => r.trace

/-- C5-driver trace from `LiteralExpression::apply_visitor`: children are
the literal, the optional annotation, then the attributes. -/
def LiteralExpression.trace (e : LiteralExpression) : List Event :=
  e.applyVisitorEvent ::
    (e.literal.trace ++
      (match e.annot with
        | some a => a.trace
        | Option.none => []) ++
      (e.attributes.map Attribute.trace).flatten)

/-- C5-driver trace from `VariableExpression::apply_visitor`: children are
the variable, the optional annotation, then the attributes. -/
def VariableExpression.trace (e : VariableExpression) : List Event :=
  e.applyVisitorEvent ::
    (e.variable_.trace ++
      (match e.annot with
        | some a => a.trace
        | Option.none => []) ++
      (e.attributes.map Attribute.trace).flatten)

/-- C5-driver trace from `AnnotationExpression::apply_visitor`: children
are the annotation then the attributes. -/
def AnnotationExpression.trace (e : AnnotationExpression) : List Event :=
  e.applyVisitorEvent ::
    (e.annot.trace ++ (e.attributes.map Attribute.trace).flatten)

/-- C5-driver trace from `Expression::apply_visitor` (wrapper). -/
def Expression.trace (e : Expression) : List Event :=
  e.applyVisitorEvent ::
    match e with
    | .literalExpression v => v.trace
    | .variableExpression v => v.trace
    | .annotationExpression v => v.trace

/-- C5-driver trace from `Markup::apply_visitor`: children are the
identifier, the options, then the attributes. -/
def Markup.trace (m : Markup) : List Event :=
  m.applyVisitorEvent ::
    (m.id.trace ++ (m.options.map FnOrMarkupOption.trace).flatten ++
      (m.attributes.map Attribute.trace).flatten)

/-- C5-driver trace from `PatternPart::apply_visitor` (wrapper). -/
def PatternPart.trace (p : PatternPart) : List Event :=
  p.applyVisitorEvent ::
    match p with
    | .text t => t.trace
    | .escape e => e.trace
    | .expression e => e.trace
    | .markup m => m.trace

/-- C5-driver trace from `Pattern::apply_visitor`: children are the parts. -/
def Pattern.trace (p : Pattern) : List Event :=
  p.applyVisitorEvent :: (p.parts.map PatternPart.trace).flatten

/-- C5-driver trace from `QuotedPattern::apply_visitor`: the single child
is the pattern. -/
def QuotedPattern.trace (q : QuotedPattern) : List Event :=
  q.applyVisitorEvent :: q.pattern.trace

/-- C5-driver trace from `Key::apply_visitor` (wrapper). -/
def Key.trace (k : Key) : List Event :=
  k.applyVisitorEvent ::
    match k with
    | .literal l => l.trace
    | .star s => s.trace

/-- C5-driver trace from `Variant::apply_visitor`: children are the keys
then the quoted pattern. -/
def Variant.trace (v : Variant) : List Event :=
  v.applyVisitorEvent ::
    ((v.keys.map Key.trace).flatten ++ v.pattern.trace)

/-- C5-driver trace from `Matcher::apply_visitor`: children are the
selectors then the variants. -/
def Matcher.trace (m : Matcher) : List Event :=
  m.applyVisitorEvent ::
    ((m.selectors.map Expression.trace).flatten ++
      (m.variants.map Variant.trace).flatten)

/-- C5-driver trace from `ComplexMessageBody::apply_visitor` (wrapper). -/
def ComplexMessageBody.trace (b : ComplexMessageBody) : List Event :=
  b.applyVisitorEvent ::
    match b with
    | .quotedPattern q => q.trace
    | .matcher m => m.trace

/-- C5-driver trace from `InputDeclaration::apply_visitor`: the single
child is the variable expression. -/
def InputDeclaration.trace (d : InputDeclaration) : List Event :=
  d.applyVisitorEvent :: d.expression.trace

/-- C5-driver trace from `LocalDeclaration::apply_visitor`: children are
the variable then the initializer expression. -/
def LocalDeclaration.trace (d : LocalDeclaration) : List Event :=
  d.applyVisitorEvent :: (d.variable_.trace ++ d.expression.trace)

/-- C5-driver trace from `ReservedStatement::apply_visitor`: children are
the body parts then the expressions. -/
def ReservedStatement.trace (r : ReservedStatement) : List Event :=
  r.applyVisitorEvent ::
    ((r.body.map ReservedBodyPart.trace).flatten ++
      (r.expressions.map Expression.trace).flatten)

/-- C5-driver trace from `Declaration::apply_visitor` (wrapper). -/
def Declaration.trace (d : Declaration) : List Event :=
  d.applyVisitorEvent ::
    match d with
    | .input v => v.trace
    | .local_ v => v.trace
    | .reservedStatement v => v.trace

/-- C5-driver trace from `ComplexMessage::apply_visitor`: children are the
declarations then the body. -/
def ComplexMessage.trace (c : ComplexMessage) : List Event :=
  c.applyVisitorEvent ::
    ((c.declarations.map Declaration.trace).flatten ++ c.body.trace)

/-- C5-driver trace from `Message::apply_visitor`: `Message` forwards both
`apply_visitor` and `apply_visitor_to_children` to the active variant and
fires no callback of its own. -/
def Message.trace : Message → List Event
  | .simple p => p.trace
  | .complex c => c.trace

/-- A rose tree of visitor events: the data-model view of an AST as a tree
of nodes (each node labelled with its own callback event). -/
inductive VTree where
  | node (e : Event) (kids : List VTree)

mutual

/-- Textbook pre-order flattening of a tree: the node itself, then the
pre-orders of its children, left to right.  Each node of the tree occurs
exactly once in the result. -/
def VTree.pre : VTree → List Event
  | .node e kids => e :: VTree.preList kids

/-- Pre-order flattening of a forest, left to right. -/
def VTree.preList : List VTree → List Event
  | [] => []
  | t :: ts => t.pre ++ VTree.preList ts

end

/-- The data-model tree of a `Text` node (a leaf). -/
def Text.toTree (t : Text) : VTree := .node t.applyVisitorEvent []

/-- The data-model tree of an `Escape` node (a leaf). -/
def Escape.toTree (e : Escape) : VTree := .node e.applyVisitorEvent []

/-- The data-model tree of a `Variable` node (a leaf). -/
def Variable.toTree (v : Variable) : VTree := .node v.applyVisitorEvent []

/-- The data-model tree of an `Identifier` node (a leaf). -/
def Identifier.toTree (i : Identifier) : VTree := .node i.applyVisitorEvent []

/-- The data-model tree of a `Star` node (a leaf). -/
def StarKey.toTree (s : StarKey) : VTree := .node s.applyVisitorEvent []

/-- The data-model tree of a `Number` node (a leaf). -/
def Number.toTree (n : Number) : VTree := .node n.applyVisitorEvent []

/-- The data-model tree of a `QuotedPart` wrapper: one child, the active
variant. -/
def QuotedPart.toTree (q : QuotedPart) : VTree :=
  .node q.applyVisitorEvent
    [match q with
      | .text t => t.toTree
      | .escape e => e.toTree]

/-- The data-model tree of a `Quoted` node: its children are its parts. -/
def Quoted.toTree (q : Quoted) : VTree :=
  .node q.applyVisitorEvent (q.parts.map QuotedPart.toTree)

/-- The data-model tree of a `Literal` wrapper. -/
def Literal.toTree (l : Literal) : VTree :=
  .node l.applyVisitorEvent
    [match l with
      | .quoted q => q.toTree
      | .text t => t.toTree
      | .number n => n.toTree]

/-- The data-model tree of a `LiteralOrVariable` wrapper. -/
def LiteralOrVariable.toTree (l : LiteralOrVariable) : VTree :=
  .node l.applyVisitorEvent
    [match l with
      | .literal v => v.toTree
      | .variable_ v => v.toTree]

/-- The data-model tree of a `FnOrMarkupOption` node: key, then value. -/
def FnOrMarkupOption.toTree (o : FnOrMarkupOption) : VTree :=
  .node o.applyVisitorEvent [o.key.toTree, o.value.toTree]

/-- The data-model tree of an `Attribute` node: key, then optional value. -/
def Attribute.toTree (a : Attribute) : VTree :=
  .node a.applyVisitorEvent
    (a.key.toTree ::
      match a.value with
      | some v => [v.toTree]
      | Option.none => [])

/-- The data-model tree of a `Function` node: identifier, then options. -/
def FunctionNode.toTree (f : FunctionNode) : VTree :=
  .node f.applyVisitorEvent
    (f.id.toTree :: f.options.map FnOrMarkupOption.toTree)

/-- The data-model tree of a `ReservedBodyPart` wrapper. -/
def ReservedBodyPart.toTree (r : ReservedBodyPart) : VTree :=
  .node r.applyVisitorEvent
    [match r with
      | .text t => t.toTree
      | .escape e => e.toTree
      | .quoted q => q.toTree]

/-- The data-model tree of a `PrivateUseAnnotation` node: the body parts. -/
def PrivateUseAnnotationNode.toTree (p : PrivateUseAnnotationNode) : VTree :=
  .node p.applyVisitorEvent (p.body.map ReservedBodyPart.toTree)

/-- The data-model tree of a `ReservedAnnotation` node: the body parts. -/
def ReservedAnnotationNode.toTree (r : ReservedAnnotationNode) : VTree :=
  .node r.applyVisitorEvent (r.body.map ReservedBodyPart.toTree)

/-- The data-model tree of an `Annotation` wrapper. -/
def AnnotationNode.toTree (a : AnnotationNode) : VTree :=
  .node a.applyVisitorEvent
    [match a with
      | .function f => f.toTree
      | .privateUse p => p.toTree
      | .reserved r => r.toTree]

/-- The data-model tree of a `LiteralExpression` node: literal, optional
annotation, attributes. -/
def LiteralExpression.toTree (e : LiteralExpression) : VTree :=
  .node e.applyVisitorEvent
    (e.literal.toTree ::
      ((match e.annot with
        | some a => [a.toTree]
        | Option.none => []) ++
        e.attributes.map Attribute.toTree))

/-- The data-model tree of a `VariableExpression` node: variable, optional
annotation, attributes. -/
def VariableExpression.toTree (e : VariableExpression) : VTree :=
  .node e.applyVisitorEvent
    (e.variable_.toTree ::
      ((match e.annot with
        | some a => [a.toTree]
        | Option.none => []) ++
        e.attributes.map Attribute.toTree))

/-- The data-model tree of an `AnnotationExpression` node: annotation,
attributes. -/
def AnnotationExpression.toTree (e : AnnotationExpression) : VTree :=
  .node e.applyVisitorEvent
    (e.annot.toTree :: e.attributes.map Attribute.toTree)

/-- The data-model tree of an `Expression` wrapper. -/
def Expression.toTree (e : Expression) : VTree :=
  .node e.applyVisitorEvent
    [match e with
      | .literalExpression v => v.toTree
      | .variableExpression v => v.toTree
      | .annotationExpression v => v.toTree]

/-- The data-model tree of a `Markup` node: identifier, options,
attributes. -/
def Markup.toTree (m : Markup) : VTree :=
  .node m.applyVisitorEvent
    (m.id.toTree ::
      (m.options.map FnOrMarkupOption.toTree ++
        m.attributes.map Attribute.toTree))

/-- The data-model tree of a `PatternPart` wrapper. -/
def PatternPart.toTree (p : PatternPart) : VTree :=
  .node p.applyVisitorEvent
    [match p with
      | .text t => t.toTree
      | .escape e => e.toTree
      | .expression e => e.toTree
      | .markup m => m.toTree]

/-- The data-model tree of a `Pattern` node: its parts. -/
def Pattern.toTree (p : Pattern) : VTree :=
  .node p.applyVisitorEvent (p.parts.map PatternPart.toTree)

/-- The data-model tree of a `QuotedPattern` node: its pattern. -/
def QuotedPattern.toTree (q : QuotedPattern) : VTree :=
  .node q.applyVisitorEvent [q.pattern.toTree]

/-- The data-model tree of a `Key` wrapper. -/
def Key.toTree (k : Key) : VTree :=
  .node k.applyVisitorEvent
    [match k with
      | .literal l => l.toTree
      | .star s => s.toTree]

/-- The data-model tree of a `Variant` node: keys, then quoted pattern. -/
def Variant.toTree (v : Variant) : VTree :=
  .node v.applyVisitorEvent
    (v.keys.map Key.toTree ++ [v.pattern.toTree])

/-- The data-model tree of a `Matcher` node: selectors, then variants. -/
def Matcher.toTree (m : Matcher) : VTree :=
  .node m.applyVisitorEvent
    (m.selectors.map Expression.toTree ++ m.variants.map Variant.toTree)

/-- The data-model tree of a `ComplexMessageBody` wrapper. -/
def ComplexMessageBody.toTree (b : ComplexMessageBody) : VTree :=
  .node b.applyVisitorEvent
    [match b with
      | .quotedPattern q => q.toTree
      | .matcher m => m.toTree]

/-- The data-model tree of an `InputDeclaration` node: its expression. -/
def InputDeclaration.toTree (d : InputDeclaration) : VTree :=
  .node d.applyVisitorEvent [d.expression.toTree]

/-- The data-model tree of a `LocalDeclaration` node: variable, then
expression. -/
def LocalDeclaration.toTree (d : LocalDeclaration) : VTree :=
  .node d.applyVisitorEvent [d.variable_.toTree, d.expression.toTree]

/-- The data-model tree of a `ReservedStatement` node: body parts, then
expressions. -/
def ReservedStatement.toTree (r : ReservedStatement) : VTree :=
  .node r.applyVisitorEvent
    (r.body.map ReservedBodyPart.toTree ++
      r.expressions.map Expression.toTree)

/-- The data-model tree of a `Declaration` wrapper. -/
def Declaration.toTree (d : Declaration) : VTree :=
  .node d.applyVisitorEvent
    [match d with
      | .input v => v.toTree
      | .local_ v => v.toTree
      | .reservedStatement v => v.toTree]

/-- The data-model tree of a `ComplexMessage` node: declarations, then
body. -/
def ComplexMessage.toTree (c : ComplexMessage) : VTree :=
  .node c.applyVisitorEvent
    (c.declarations.map Declaration.toTree ++ [c.body.toTree])

/-- The data-model tree of a `Message`: per the data model a message *is*
its simple pattern or its complex message; it carries no node of its own. -/
def Message.toTree : Message → VTree
  | .simple p => p.toTree
  | .complex c => c.toTree

/-- Check an optional component with a boolean predicate. -/
def optAll {α : Type} (p : α → Bool) : Option α → Bool
  | Option.none => true
  | some a => p a

/-- `chainFrom x spans`: the spans sit in source order at or after offset
`x` — each span starts no earlier than the previous one ended (and no
earlier than `x`), and each is itself ordered.  This is the ordering the
external parser guarantees for the children of every composite node
(spec section 3: ordered sequences; a node "never extends beyond what was
actually consumed"). -/
def chainFrom : Nat → List Span → Bool
  | _, [] => true
  | x, s :: rest =>
    decide (x ≤ s.start) && decide (s.start ≤ s.stop) && chainFrom s.stop rest

/-- The stop offset of the last span of the list, or `x` for the empty
list. -/
def lastStop : Nat → List Span → Nat
  | x, [] => x
  | _, s :: rest => lastStop s.stop rest

/-- Parser-constructibility of a `Text` node: nothing to require. -/
def Text.wf (_ : Text) : Bool := true

/-- Parser-constructibility of an `Escape` node: nothing to require. -/
def Escape.wf (_ : Escape) : Bool := true

/-- Parser-constructibility of a `Variable` node: its stored span is
ordered. -/
def Variable.wf (v : Variable) : Bool := decide (v.span.start ≤ v.span.stop)

/-- Parser-constructibility of an `Identifier` node: nothing to require. -/
def Identifier.wf (_ : Identifier) : Bool := true

/-- Parser-constructibility of a `Star` node: nothing to require. -/
def StarKey.wf (_ : StarKey) : Bool := true

/-- Parser-constructibility of a `Number` node: nothing to require for
span purposes. -/
def Number.wf (_ : Number) : Bool := true

/-- Parser-constructibility of a `QuotedPart` wrapper. -/
def QuotedPart.wf : QuotedPart → Bool
  | .text t => t.wf
  | .escape e => e.wf

/-- Parser-constructibility of a `Quoted` node: ordered stored span,
well-formed parts. -/
def Quoted.wf (q : Quoted) : Bool :=
  decide (q.span.start ≤ q.span.stop) && q.parts.all QuotedPart.wf

/-- Parser-constructibility of a `Literal` wrapper. -/
def Literal.wf : Literal → Bool
  | .quoted q => q.wf
  | .text t => t.wf
  | .number n => n.wf

/-- Parser-constructibility of a `LiteralOrVariable` wrapper. -/
def LiteralOrVariable.wf : LiteralOrVariable → Bool
  | .literal l => l.wf
  | .variable_ v => v.wf

/-- Parser-constructibility of a `FnOrMarkupOption` node: well-formed key
and value, with the key written before the value. -/
def FnOrMarkupOption.wf (o : FnOrMarkupOption) : Bool :=
  o.value.wf && decide (o.key.span.stop ≤ o.value.span.start)

/-- Parser-constructibility of an `Attribute` node: ordered stored span,
well-formed optional value. -/
def Attribute.wf (a : Attribute) : Bool :=
  decide (a.span.start ≤ a.span.stop) && optAll LiteralOrVariable.wf a.value

/-- Parser-constructibility of a `Function` node: well-formed options, and
identifier followed by the options in source order at or after the
function's start. -/
def FunctionNode.wf (f : FunctionNode) : Bool :=
  f.options.all FnOrMarkupOption.wf &&
    chainFrom f.start (f.id.span :: f.options.map FnOrMarkupOption.span)

/-- Parser-constructibility of a `ReservedBodyPart` wrapper. -/
def ReservedBodyPart.wf : ReservedBodyPart → Bool
  | .text t => t.wf
  | .escape e => e.wf
  | .quoted q => q.wf

/-- Parser-constructibility of a `PrivateUseAnnotation` node: well-formed
body parts in source order after the start. -/
def PrivateUseAnnotationNode.wf (p : PrivateUseAnnotationNode) : Bool :=
  p.body.all ReservedBodyPart.wf &&
    chainFrom p.start (p.body.map ReservedBodyPart.span)

/-- Parser-constructibility of a `ReservedAnnotation` node: well-formed
body parts in source order after the start. -/
def ReservedAnnotationNode.wf (r : ReservedAnnotationNode) : Bool :=
  r.body.all ReservedBodyPart.wf &&
    chainFrom r.start (r.body.map ReservedBodyPart.span)

/-- Parser-constructibility of an `Annotation` wrapper. -/
def AnnotationNode.wf : AnnotationNode → Bool
  | .function f => f.wf
  | .privateUse p => p.wf
  | .reserved r => r.wf

/-- Parser-constructibility of a `LiteralExpression` node: ordered stored
span, well-formed components. -/
def LiteralExpression.wf (e : LiteralExpression) : Bool :=
  decide (e.span.start ≤ e.span.stop) && e.literal.wf &&
    optAll AnnotationNode.wf e.annot && e.attributes.all Attribute.wf

/-- Parser-constructibility of a `VariableExpression` node: ordered stored
span, well-formed components. -/
def VariableExpression.wf (e : VariableExpression) : Bool :=
  decide (e.span.start ≤ e.span.stop) && e.variable_.wf &&
    optAll AnnotationNode.wf e.annot && e.attributes.all Attribute.wf

/-- Parser-constructibility of an `AnnotationExpression` node: ordered
stored span, well-formed components. -/
def AnnotationExpression.wf (e : AnnotationExpression) : Bool :=
  decide (e.span.start ≤ e.span.stop) && e.annot.wf &&
    e.attributes.all Attribute.wf

/-- Parser-constructibility of an `Expression` wrapper. -/
def Expression.wf : Expression → Bool
  | .literalExpression e => e.wf
  | .variableExpression e => e.wf
  | .annotationExpression e => e.wf

/-- Parser-constructibility of a `Markup` node: ordered stored span,
well-formed components. -/
def Markup.wf (m : Markup) : Bool :=
  decide (m.span.start ≤ m.span.stop) &&
    m.options.all FnOrMarkupOption.wf && m.attributes.all Attribute.wf

/-- Parser-constructibility of a `PatternPart` wrapper. -/
def PatternPart.wf : PatternPart → Bool
  | .text t => t.wf
  | .escape e => e.wf
  | .expression e => e.wf
  | .markup m => m.wf

/-- Parser-constructibility of a `Pattern` node: well-formed parts in
source order. -/
def Pattern.wf (p : Pattern) : Bool :=
  p.parts.all PatternPart.wf && chainFrom 0 (p.parts.map PatternPart.span)

/-- Parser-constructibility of a `QuotedPattern` node: ordered stored
span, well-formed pattern. -/
def QuotedPattern.wf (q : QuotedPattern) : Bool :=
  decide (q.span.start ≤ q.span.stop) && q.pattern.wf

/-- Parser-constructibility of a `Key` wrapper. -/
def Key.wf : Key → Bool
  | .literal l => l.wf
  | .star s => s.wf

/-- Parser-constructibility of a `Variant` node: well-formed keys and
pattern, keys written before the quoted pattern, in source order. -/
def Variant.wf (v : Variant) : Bool :=
  v.keys.all Key.wf && v.pattern.wf &&
    chainFrom 0 (v.keys.map Key.span ++ [v.pattern.span])

/-- Parser-constructibility of a `Matcher` node: well-formed selectors and
variants, written in source order after the `.match` start. -/
def Matcher.wf (m : Matcher) : Bool :=
  m.selectors.all Expression.wf && m.variants.all Variant.wf &&
    chainFrom m.start
      (m.selectors.map Expression.span ++ m.variants.map Variant.span)

/-- Parser-constructibility of a `ComplexMessageBody` wrapper. -/
def ComplexMessageBody.wf : ComplexMessageBody → Bool
  | .quotedPattern q => q.wf
  | .matcher m => m.wf

/-- Parser-constructibility of an `InputDeclaration` node: its expression
is well formed and starts at or after the `.input` start. -/
def InputDeclaration.wf (d : InputDeclaration) : Bool :=
  d.expression.wf && decide (d.start ≤ d.expression.span.start)

/-- Parser-constructibility of a `LocalDeclaration` node: components well
formed, the initializer at or after the `.local` start. -/
def LocalDeclaration.wf (d : LocalDeclaration) : Bool :=
  d.variable_.wf && d.expression.wf &&
    decide (d.start ≤ (Expression.span d.expression).start)

/-- Parser-constructibility of a `ReservedStatement` node: well-formed
body parts then expressions, in source order after the statement start. -/
def ReservedStatement.wf (r : ReservedStatement) : Bool :=
  r.body.all ReservedBodyPart.wf && r.expressions.all Expression.wf &&
    chainFrom r.start
      (r.body.map ReservedBodyPart.span ++ r.expressions.map Expression.span)

/-- Parser-constructibility of a `Declaration` wrapper. -/
def Declaration.wf : Declaration → Bool
  | .input d => d.wf
  | .local_ d => d.wf
  | .reservedStatement d => d.wf

/-- Parser-constructibility of a `ComplexMessage` node: well-formed
declarations and body. -/
def ComplexMessage.wf (c : ComplexMessage) : Bool :=
  c.declarations.all Declaration.wf && c.body.wf

/-- Parser-constructibility of a `Message`. -/
def Message.wf : Message → Bool
  | .simple p => p.wf
  | .complex c => c.wf

/-- A parser-constructible `Number` for `"-12.34e-5"` placed at source
offset 7: negative, two integral digits, two fractional digits, one
exponent digit with an explicit minus — the structural lengths decompose
the raw text exactly. -/
def numC1 : Number :=
  ⟨7, rawNeg1234e5, true, 2, some 2, some (ExponentSign.minus, 1)⟩

/-- The spec's own round-trip configuration (`fractional_len = 3`), at
start offset 0. -/
def numC3len3 : Number :=
  ⟨0, rawNeg1234e5, true, 2, some 3, some (ExponentSign.minus, 1)⟩

/-- The claim's configuration with the repaired fractional length 2 but a
nonzero start offset 5. -/
def numC3start5 : Number :=
  ⟨5, rawNeg1234e5, true, 2, some 2, some (ExponentSign.minus, 1)⟩

/-- `"-12.34e-5"` at start 0 with the consistent structural lengths:
integral 2, fractional 2, exponent (minus, 1). -/
def numC3ok : Number :=
  ⟨0, rawNeg1234e5, true, 2, some 2, some (ExponentSign.minus, 1)⟩

/-- A one-character text node at offset 0. -/
def textA : Text := ⟨0, ['a']⟩

/-- A `Function` node (a composite with children: its identifier, then one
option) whose stored start (0, at the `:` sigil) precedes its first child,
the identifier at offset 1. -/
def fnC4 : FunctionNode :=
  ⟨0, ⟨1, Option.none, ['f']⟩,
    [⟨⟨5, Option.none, ['k']⟩, .variable_ ⟨⟨7, 9⟩, ['x']⟩⟩]⟩

/-- Modelled from the claim: the byte length of a function annotation's
introducing marker — the `:` sigil followed by the (possibly
namespace-qualified) identifier as written. -/
def functionIntroducerLen (f : FunctionNode) : Nat :=
  csize ':' +
    ((match f.id.namespace_ with
      | some ns => utf8Len ns + csize ':'
      | Option.none => 0) +
      utf8Len f.id.name)

/-- A concrete `:f` function with no options for the C7 witness. -/
def fnC7 : FunctionNode := ⟨0, ⟨1, Option.none, ['f']⟩, []⟩

/-- A small well-formed message (`hi` then `{$x}`) for the C8 witness. -/
def msgC8 : Message :=
  .simple ⟨[.text ⟨0, ['h', 'i']⟩,
    .expression (.variableExpression ⟨⟨2, 6⟩, ⟨⟨3, 5⟩, ['x']⟩, Option.none, []⟩)]⟩

/-- A concrete variable-reference selector expression. -/
def exprC10 : Expression :=
  .variableExpression ⟨⟨7, 9⟩, ⟨⟨8, 9⟩, ['x']⟩, Option.none, []⟩

/-- A matcher with one selector and no variants. -/
def matcherC10 : Matcher := ⟨0, [exprC10], []⟩

/-- A reserved statement with a one-part body and no expressions. -/
def rsBodyC10 : ReservedStatement := ⟨0, ['n'], [.text ⟨3, ['b']⟩], []⟩

/-- A reserved statement with empty body and no expressions. -/
def rsEmptyC10 : ReservedStatement := ⟨0, ['n'], [], []⟩

/-- A keyless variant. -/
def variantC10 : Variant := ⟨[], ⟨⟨4, 9⟩, ⟨[]⟩⟩⟩

/-- Pre-order of a forest concatenation. -/
theorem VTree.preList_append (l₁ l₂ : List VTree) :
    VTree.preList (l₁ ++ l₂) = VTree.preList l₁ ++ VTree.preList l₂ := by
  induction l₁ with
  | nil => rfl
  | cons t ts ih => simp [VTree.preList, ih]

/-- Pre-order of a mapped forest, given the pre-order of each member. -/
theorem VTree.preList_map {α : Type} (f : α → VTree) (g : α → List Event)
    (h : ∀ a, (f a).pre = g a) (l : List α) :
    VTree.preList (l.map f) = (l.map g).flatten := by
  induction l with
  | nil => rfl
  | cons a t ih => simp [VTree.preList, h, ih]

/-- The driver trace of a `Text` node is the pre-order of its tree. -/
theorem trace_pre_text (t : Text) : t.trace = t.toTree.pre := by
  simp [Text.trace, Text.toTree, VTree.pre, VTree.preList]

/-- The driver trace of an `Escape` node is the pre-order of its tree. -/
theorem trace_pre_escape (e : Escape) : e.trace = e.toTree.pre := by
  simp [Escape.trace, Escape.toTree, VTree.pre, VTree.preList]

/-- The driver trace of a `Variable` node is the pre-order of its tree. -/
theorem trace_pre_variable (v : Variable) : v.trace = v.toTree.pre := by
  simp [Variable.trace, Variable.toTree, VTree.pre, VTree.preList]

/-- The driver trace of an `Identifier` node is the pre-order of its tree. -/
theorem trace_pre_identifier (i : Identifier) : i.trace = i.toTree.pre := by
  simp [Identifier.trace, Identifier.toTree, VTree.pre, VTree.preList]

/-- The driver trace of a `Star` node is the pre-order of its tree. -/
theorem trace_pre_star (s : StarKey) : s.trace = s.toTree.pre := by
  simp [StarKey.trace, StarKey.toTree, VTree.pre, VTree.preList]

/-- The driver trace of a `Number` node is the pre-order of its tree. -/
theorem trace_pre_number (n : Number) : n.trace = n.toTree.pre := by
  simp [Number.trace, Number.toTree, VTree.pre, VTree.preList]

/-- The driver trace of a `QuotedPart` wrapper is the pre-order of its
tree. -/
theorem trace_pre_quotedPart (q : QuotedPart) : q.trace = q.toTree.pre := by
  cases q <;>
    simp [QuotedPart.trace, QuotedPart.toTree, VTree.pre, VTree.preList,
      trace_pre_text, trace_pre_escape]

/-- The driver trace of a `Quoted` node is the pre-order of its tree. -/
theorem trace_pre_quoted (q : Quoted) : q.trace = q.toTree.pre := by
  simp [Quoted.trace, Quoted.toTree, VTree.pre,
    VTree.preList_map QuotedPart.toTree QuotedPart.trace
      (fun a => (trace_pre_quotedPart a).symm)]

/-- The driver trace of a `Literal` wrapper is the pre-order of its tree. -/
theorem trace_pre_literal (l : Literal) : l.trace = l.toTree.pre := by
  cases l <;>
    simp [Literal.trace, Literal.toTree, VTree.pre, VTree.preList,
      trace_pre_quoted, trace_pre_text, trace_pre_number]

/-- The driver trace of a `LiteralOrVariable` wrapper is the pre-order of
its tree. -/
theorem trace_pre_literalOrVariable (l : LiteralOrVariable) :
    l.trace = l.toTree.pre := by
  cases l <;>
    simp [LiteralOrVariable.trace, LiteralOrVariable.toTree, VTree.pre,
      VTree.preList, trace_pre_literal, trace_pre_variable]

/-- The driver trace of a `FnOrMarkupOption` node is the pre-order of its
tree. -/
theorem trace_pre_fnOrMarkupOption (o : FnOrMarkupOption) :
    o.trace = o.toTree.pre := by
  simp [FnOrMarkupOption.trace, FnOrMarkupOption.toTree, VTree.pre,
    VTree.preList, trace_pre_identifier, trace_pre_literalOrVariable]

/-- The driver trace of an `Attribute` node is the pre-order of its tree. -/
theorem trace_pre_attribute (a : Attribute) : a.trace = a.toTree.pre := by
  obtain ⟨sp, k, val⟩ := a
  cases val <;>
    simp [Attribute.trace, Attribute.toTree, VTree.pre, VTree.preList,
      trace_pre_identifier, trace_pre_literalOrVariable]

/-- The driver trace of a `Function` node is the pre-order of its tree. -/
theorem trace_pre_function (f : FunctionNode) : f.trace = f.toTree.pre := by
  simp [FunctionNode.trace, FunctionNode.toTree, VTree.pre, VTree.preList,
    trace_pre_identifier,
    VTree.preList_map FnOrMarkupOption.toTree FnOrMarkupOption.trace
      (fun a => (trace_pre_fnOrMarkupOption a).symm)]

/-- The driver trace of a `ReservedBodyPart` wrapper is the pre-order of
its tree. -/
theorem trace_pre_reservedBodyPart (r : ReservedBodyPart) :
    r.trace = r.toTree.pre := by
  cases r <;>
    simp [ReservedBodyPart.trace, ReservedBodyPart.toTree, VTree.pre,
      VTree.preList, trace_pre_text, trace_pre_escape, trace_pre_quoted]

/-- The driver trace of a `PrivateUseAnnotation` node is the pre-order of
its tree. -/
theorem trace_pre_privateUse (p : PrivateUseAnnotationNode) :
    p.trace = p.toTree.pre := by
  simp [PrivateUseAnnotationNode.trace, PrivateUseAnnotationNode.toTree,
    VTree.pre,
    VTree.preList_map ReservedBodyPart.toTree ReservedBodyPart.trace
      (fun a => (trace_pre_reservedBodyPart a).symm)]

/-- The driver trace of a `ReservedAnnotation` node is the pre-order of
its tree. -/
theorem trace_pre_reservedAnn (r : ReservedAnnotationNode) :
    r.trace = r.toTree.pre := by
  simp [ReservedAnnotationNode.trace, ReservedAnnotationNode.toTree,
    VTree.pre,
    VTree.preList_map ReservedBodyPart.toTree ReservedBodyPart.trace
      (fun a => (trace_pre_reservedBodyPart a).symm)]

/-- The driver trace of an `Annotation` wrapper is the pre-order of its
tree. -/
theorem trace_pre_annotationNode (a : AnnotationNode) :
    a.trace = a.toTree.pre := by
  cases a <;>
    simp [AnnotationNode.trace, AnnotationNode.toTree, VTree.pre,
      VTree.preList, trace_pre_function, trace_pre_privateUse,
      trace_pre_reservedAnn]

/-- The driver trace of a `LiteralExpression` node is the pre-order of its
tree. -/
theorem trace_pre_literalExpression (e : LiteralExpression) :
    e.trace = e.toTree.pre := by
  obtain ⟨sp, lit, ann, attrs⟩ := e
  cases ann <;>
    simp [LiteralExpression.trace, LiteralExpression.toTree, VTree.pre,
      VTree.preList, VTree.preList_append, trace_pre_literal,
      trace_pre_annotationNode,
      VTree.preList_map Attribute.toTree Attribute.trace
        (fun a => (trace_pre_attribute a).symm)]

/-- The driver trace of a `VariableExpression` node is the pre-order of
its tree. -/
theorem trace_pre_variableExpression (e : VariableExpression) :
    e.trace = e.toTree.pre := by
  obtain ⟨sp, v, ann, attrs⟩ := e
  cases ann <;>
    simp [VariableExpression.trace, VariableExpression.toTree, VTree.pre,
      VTree.preList, VTree.preList_append, trace_pre_variable,
      trace_pre_annotationNode,
      VTree.preList_map Attribute.toTree Attribute.trace
        (fun a => (trace_pre_attribute a).symm)]

/-- The driver trace of an `AnnotationExpression` node is the pre-order of
its tree. -/
theorem trace_pre_annotationExpression (e : AnnotationExpression) :
    e.trace = e.toTree.pre := by
  simp [AnnotationExpression.trace, AnnotationExpression.toTree, VTree.pre,
    VTree.preList, trace_pre_annotationNode,
    VTree.preList_map Attribute.toTree Attribute.trace
      (fun a => (trace_pre_attribute a).symm)]

/-- The driver trace of an `Expression` wrapper is the pre-order of its
tree. -/
theorem trace_pre_expression (e : Expression) : e.trace = e.toTree.pre := by
  cases e <;>
    simp [Expression.trace, Expression.toTree, VTree.pre, VTree.preList,
      trace_pre_literalExpression, trace_pre_variableExpression,
      trace_pre_annotationExpression]

/-- The driver trace of a `Markup` node is the pre-order of its tree. -/
theorem trace_pre_markup (m : Markup) : m.trace = m.toTree.pre := by
  simp [Markup.trace, Markup.toTree, VTree.pre, VTree.preList,
    VTree.preList_append, trace_pre_identifier,
    VTree.preList_map FnOrMarkupOption.toTree FnOrMarkupOption.trace
      (fun a => (trace_pre_fnOrMarkupOption a).symm),
    VTree.preList_map Attribute.toTree Attribute.trace
      (fun a => (trace_pre_attribute a).symm)]

/-- The driver trace of a `PatternPart` wrapper is the pre-order of its
tree. -/
theorem trace_pre_patternPart (p : PatternPart) : p.trace = p.toTree.pre := by
  cases p <;>
    simp [PatternPart.trace, PatternPart.toTree, VTree.pre, VTree.preList,
      trace_pre_text, trace_pre_escape, trace_pre_expression,
      trace_pre_markup]

/-- The driver trace of a `Pattern` node is the pre-order of its tree. -/
theorem trace_pre_pattern (p : Pattern) : p.trace = p.toTree.pre := by
  simp [Pattern.trace, Pattern.toTree, VTree.pre,
    VTree.preList_map PatternPart.toTree PatternPart.trace
      (fun a => (trace_pre_patternPart a).symm)]

/-- The driver trace of a `QuotedPattern` node is the pre-order of its
tree. -/
theorem trace_pre_quotedPattern (q : QuotedPattern) :
    q.trace = q.toTree.pre := by
  simp [QuotedPattern.trace, QuotedPattern.toTree, VTree.pre, VTree.preList,
    trace_pre_pattern]

/-- The driver trace of a `Key` wrapper is the pre-order of its tree. -/
theorem trace_pre_key (k : Key) : k.trace = k.toTree.pre := by
  cases k <;>
    simp [Key.trace, Key.toTree, VTree.pre, VTree.preList,
      trace_pre_literal, trace_pre_star]

/-- The driver trace of a `Variant` node is the pre-order of its tree. -/
theorem trace_pre_variant (v : Variant) : v.trace = v.toTree.pre := by
  simp [Variant.trace, Variant.toTree, VTree.pre, VTree.preList,
    VTree.preList_append, trace_pre_quotedPattern,
    VTree.preList_map Key.toTree Key.trace
      (fun a => (trace_pre_key a).symm)]

/-- The driver trace of a `Matcher` node is the pre-order of its tree. -/
theorem trace_pre_matcher (m : Matcher) : m.trace = m.toTree.pre := by
  simp [Matcher.trace, Matcher.toTree, VTree.pre, VTree.preList_append,
    VTree.preList_map Expression.toTree Expression.trace
      (fun a => (trace_pre_expression a).symm),
    VTree.preList_map Variant.toTree Variant.trace
      (fun a => (trace_pre_variant a).symm)]

/-- The driver trace of a `ComplexMessageBody` wrapper is the pre-order of
its tree. -/
theorem trace_pre_complexMessageBody (b : ComplexMessageBody) :
    b.trace = b.toTree.pre := by
  cases b <;>
    simp [ComplexMessageBody.trace, ComplexMessageBody.toTree, VTree.pre,
      VTree.preList, trace_pre_quotedPattern, trace_pre_matcher]

/-- The driver trace of an `InputDeclaration` node is the pre-order of its
tree. -/
theorem trace_pre_inputDeclaration (d : InputDeclaration) :
    d.trace = d.toTree.pre := by
  simp [InputDeclaration.trace, InputDeclaration.toTree, VTree.pre,
    VTree.preList, trace_pre_variableExpression]

/-- The driver trace of a `LocalDeclaration` node is the pre-order of its
tree. -/
theorem trace_pre_localDeclaration (d : LocalDeclaration) :
    d.trace = d.toTree.pre := by
  simp [LocalDeclaration.trace, LocalDeclaration.toTree, VTree.pre,
    VTree.preList, trace_pre_variable, trace_pre_expression]

/-- The driver trace of a `ReservedStatement` node is the pre-order of its
tree. -/
theorem trace_pre_reservedStatement (r : ReservedStatement) :
    r.trace = r.toTree.pre := by
  simp [ReservedStatement.trace, ReservedStatement.toTree, VTree.pre,
    VTree.preList_append,
    VTree.preList_map ReservedBodyPart.toTree ReservedBodyPart.trace
      (fun a => (trace_pre_reservedBodyPart a).symm),
    VTree.preList_map Expression.toTree Expression.trace
      (fun a => (trace_pre_expression a).symm)]

/-- The driver trace of a `Declaration` wrapper is the pre-order of its
tree. -/
theorem trace_pre_declaration (d : Declaration) : d.trace = d.toTree.pre := by
  cases d <;>
    simp [Declaration.trace, Declaration.toTree, VTree.pre, VTree.preList,
      trace_pre_inputDeclaration, trace_pre_localDeclaration,
      trace_pre_reservedStatement]

/-- The driver trace of a `ComplexMessage` node is the pre-order of its
tree. -/
theorem trace_pre_complexMessage (c : ComplexMessage) :
    c.trace = c.toTree.pre := by
  simp [ComplexMessage.trace, ComplexMessage.toTree, VTree.pre,
    VTree.preList, VTree.preList_append, trace_pre_complexMessageBody,
    VTree.preList_map Declaration.toTree Declaration.trace
      (fun a => (trace_pre_declaration a).symm)]

/-- A chained list only moves forward: its last stop is at or after the
base offset. -/
theorem chainFrom_le (l : List Span) (x : Nat)
    (h : chainFrom x l = true) : x ≤ lastStop x l := by
  induction l generalizing x with
  | nil => exact Nat.le_refl x
  | cons s rest ih =>
    simp only [chainFrom, Bool.and_eq_true, decide_eq_true_eq] at h
    obtain ⟨⟨h1, h2⟩, hrest⟩ := h
    have h3 := ih s.stop hrest
    simp only [lastStop]
    exact Nat.le_trans h1 (Nat.le_trans h2 h3)

/-- A chained list's first start is at or before its last stop. -/
theorem chainFrom_start_le (s : Span) (rest : List Span) (x : Nat)
    (h : chainFrom x (s :: rest) = true) :
    s.start ≤ lastStop x (s :: rest) := by
  simp only [chainFrom, Bool.and_eq_true, decide_eq_true_eq] at h
  obtain ⟨⟨h1, h2⟩, hrest⟩ := h
  have h3 := chainFrom_le rest s.stop hrest
  simp only [lastStop]
  exact Nat.le_trans h2 h3

/-- `lastStop` across a mapped list, in the `getLast?` form the span
functions use. -/
theorem lastStop_map {α : Type} (f : α → Span) (l : List α) (x : Nat) :
    lastStop x (l.map f) =
      (match l.getLast? with
        | some a => (f a).stop
        | Option.none => x) := by
  induction l generalizing x with
  | nil => rfl
  | cons a rest ih =>
    cases rest with
    | nil => rfl
    | cons b rs =>
      simpa [lastStop, List.getLast?_cons_cons] using ih ((f a).stop)

/-- `lastStop` of a list ending in a given span is that span's stop. -/
theorem lastStop_append_singleton (l : List Span) (x : Nat) (s : Span) :
    lastStop x (l ++ [s]) = s.stop := by
  induction l generalizing x with
  | nil => rfl
  | cons t ts ih => simpa [lastStop] using ih t.stop

/-- `lastStop` across an append. -/
theorem lastStop_append (l₁ l₂ : List Span) (x : Nat) :
    lastStop x (l₁ ++ l₂) = lastStop (lastStop x l₁) l₂ := by
  induction l₁ generalizing x with
  | nil => rfl
  | cons t ts ih => simpa [lastStop] using ih t.stop

/-- `getLast?` of a nonempty list, in `getLastD` form. -/
theorem getLast?_cons_eq {α : Type} (a : α) (l : List α) :
    (a :: l).getLast? = some (l.getLastD a) := by
  induction l generalizing a with
  | nil => rfl
  | cons b t ih => rw [List.getLast?_cons_cons, List.getLastD_cons]; exact ih b

/-- A `Text` span is ordered. -/
theorem spanWf_text (t : Text) (_h : t.wf = true) :
    (Text.span t).start ≤ (Text.span t).stop := by
  show t.start ≤ t.start + utf8Len t.content
  omega

/-- An `Escape` span is ordered. -/
theorem spanWf_escape (e : Escape) (_h : e.wf = true) :
    (Escape.span e).start ≤ (Escape.span e).stop := by
  show e.start ≤ e.start + csize '\\' + csize e.escaped_char
  omega

/-- A `Variable` span is ordered when the node is well formed. -/
theorem spanWf_variable (v : Variable) (h : v.wf = true) :
    (Variable.span v).start ≤ (Variable.span v).stop :=
  of_decide_eq_true h

/-- An `Identifier` span is ordered. -/
theorem spanWf_identifier (i : Identifier) (_h : i.wf = true) :
    (Identifier.span i).start ≤ (Identifier.span i).stop := by
  cases hns : i.namespace_ with
  | none => simp [Identifier.span, advStr, hns]
  | some ns =>
    simp [Identifier.span, advStr, advChar, hns]
    omega

/-- A `Star` span is ordered. -/
theorem spanWf_star (s : StarKey) (_h : s.wf = true) :
    (StarKey.span s).start ≤ (StarKey.span s).stop := by
  show s.start ≤ s.start + csize '*'
  omega

/-- A `Number` span is ordered. -/
theorem spanWf_number (n : Number) (_h : n.wf = true) :
    (Number.span n).start ≤ (Number.span n).stop := by
  show n.start ≤ n.start + utf8Len n.raw
  omega

/-- A `QuotedPart` span is ordered when the node is well formed. -/
theorem spanWf_quotedPart (q : QuotedPart) (h : q.wf = true) :
    (QuotedPart.span q).start ≤ (QuotedPart.span q).stop := by
  cases q with
  | text t => exact spanWf_text t h
  | escape e => exact spanWf_escape e h

/-- A `Quoted` span is ordered when the node is well formed. -/
theorem spanWf_quoted (q : Quoted) (h : q.wf = true) :
    (Quoted.span q).start ≤ (Quoted.span q).stop := by
  simp only [Quoted.wf, Bool.and_eq_true, decide_eq_true_eq] at h
  exact h.1

/-- A `Literal` span is ordered when the node is well formed. -/
theorem spanWf_literal (l : Literal) (h : l.wf = true) :
    (Literal.span l).start ≤ (Literal.span l).stop := by
  cases l with
  | quoted q => exact spanWf_quoted q h
  | text t => exact spanWf_text t h
  | number n => exact spanWf_number n h

/-- A `LiteralOrVariable` span is ordered when the node is well formed. -/
theorem spanWf_literalOrVariable (l : LiteralOrVariable) (h : l.wf = true) :
    (LiteralOrVariable.span l).start ≤ (LiteralOrVariable.span l).stop := by
  cases l with
  | literal v => exact spanWf_literal v h
  | variable_ v => exact spanWf_variable v h

/-- A `FnOrMarkupOption` span is ordered when the node is well formed. -/
theorem spanWf_fnOrMarkupOption (o : FnOrMarkupOption) (h : o.wf = true) :
    (FnOrMarkupOption.span o).start ≤ (FnOrMarkupOption.span o).stop := by
  simp only [FnOrMarkupOption.wf, Bool.and_eq_true, decide_eq_true_eq] at h
  obtain ⟨hv, hkv⟩ := h
  have h1 := spanWf_identifier o.key rfl
  have h2 := spanWf_literalOrVariable o.value hv
  show o.key.span.start ≤ o.value.span.stop
  omega

/-- An `Attribute` span is ordered when the node is well formed. -/
theorem spanWf_attribute (a : Attribute) (h : a.wf = true) :
    (Attribute.span a).start ≤ (Attribute.span a).stop := by
  simp only [Attribute.wf, Bool.and_eq_true, decide_eq_true_eq] at h
  exact h.1

/-- A `Function` span is ordered when the node is well formed. -/
theorem spanWf_function (f : FunctionNode) (h : f.wf = true) :
    (FunctionNode.span f).start ≤ (FunctionNode.span f).stop := by
  simp only [FunctionNode.wf, Bool.and_eq_true] at h
  obtain ⟨hopts, hchain⟩ := h
  have h1 := chainFrom_le _ _ hchain
  simp only [lastStop] at h1
  rw [lastStop_map] at h1
  cases hgl : f.options.getLast? <;>
    simp only [FunctionNode.span, hgl] at h1 ⊢ <;> exact h1

/-- A `ReservedBodyPart` span is ordered when the node is well formed. -/
theorem spanWf_reservedBodyPart (r : ReservedBodyPart) (h : r.wf = true) :
    (ReservedBodyPart.span r).start ≤ (ReservedBodyPart.span r).stop := by
  cases r with
  | text t => exact spanWf_text t h
  | escape e => exact spanWf_escape e h
  | quoted q => exact spanWf_quoted q h

/-- A `PrivateUseAnnotation` span is ordered when the node is well formed. -/
theorem spanWf_privateUse (p : PrivateUseAnnotationNode) (h : p.wf = true) :
    (PrivateUseAnnotationNode.span p).start ≤
      (PrivateUseAnnotationNode.span p).stop := by
  simp only [PrivateUseAnnotationNode.wf, Bool.and_eq_true] at h
  obtain ⟨hbody, hchain⟩ := h
  have h1 := chainFrom_le _ _ hchain
  rw [lastStop_map] at h1
  cases hgl : p.body.getLast? with
  | none =>
    show p.start ≤
      match p.body.getLast? with
      | some last => last.span.stop
      | Option.none => advChar p.start p.sigil
    rw [hgl]
    show p.start ≤ p.start + csize p.sigil
    omega
  | some a =>
    rw [hgl] at h1
    show p.start ≤
      match p.body.getLast? with
      | some last => last.span.stop
      | Option.none => advChar p.start p.sigil
    rw [hgl]
    exact h1

/-- A `ReservedAnnotation` span is ordered when the node is well formed. -/
theorem spanWf_reservedAnn (r : ReservedAnnotationNode) (h : r.wf = true) :
    (ReservedAnnotationNode.span r).start ≤
      (ReservedAnnotationNode.span r).stop := by
  simp only [ReservedAnnotationNode.wf, Bool.and_eq_true] at h
  obtain ⟨hbody, hchain⟩ := h
  have h1 := chainFrom_le _ _ hchain
  rw [lastStop_map] at h1
  cases hgl : r.body.getLast? with
  | none =>
    show r.start ≤
      match r.body.getLast? with
      | some last => last.span.stop
      | Option.none => advChar r.start r.sigil
    rw [hgl]
    show r.start ≤ r.start + csize r.sigil
    omega
  | some a =>
    rw [hgl] at h1
    show r.start ≤
      match r.body.getLast? with
      | some last => last.span.stop
      | Option.none => advChar r.start r.sigil
    rw [hgl]
    exact h1

/-- An `Annotation` span is ordered when the node is well formed. -/
theorem spanWf_annotationNode (a : AnnotationNode) (h : a.wf = true) :
    (AnnotationNode.span a).start ≤ (AnnotationNode.span a).stop := by
  cases a with
  | function f => exact spanWf_function f h
  | privateUse p => exact spanWf_privateUse p h
  | reserved r => exact spanWf_reservedAnn r h

/-- A `LiteralExpression` span is ordered when the node is well formed. -/
theorem spanWf_literalExpression (e : LiteralExpression) (h : e.wf = true) :
    (LiteralExpression.span e).start ≤ (LiteralExpression.span e).stop := by
  simp only [LiteralExpression.wf, Bool.and_eq_true, decide_eq_true_eq] at h
  exact h.1.1.1

/-- A `VariableExpression` span is ordered when the node is well formed. -/
theorem spanWf_variableExpression (e : VariableExpression) (h : e.wf = true) :
    (VariableExpression.span e).start ≤ (VariableExpression.span e).stop := by
  simp only [VariableExpression.wf, Bool.and_eq_true, decide_eq_true_eq] at h
  exact h.1.1.1

/-- An `AnnotationExpression` span is ordered when the node is well formed. -/
theorem spanWf_annotationExpression (e : AnnotationExpression)
    (h : e.wf = true) :
    (AnnotationExpression.span e).start ≤ (AnnotationExpression.span e).stop := by
  simp only [AnnotationExpression.wf, Bool.and_eq_true, decide_eq_true_eq] at h
  exact h.1.1

/-- An `Expression` span is ordered when the node is well formed. -/
theorem spanWf_expression (e : Expression) (h : e.wf = true) :
    (Expression.span e).start ≤ (Expression.span e).stop := by
  cases e with
  | literalExpression v => exact spanWf_literalExpression v h
  | variableExpression v => exact spanWf_variableExpression v h
  | annotationExpression v => exact spanWf_annotationExpression v h

/-- A `Markup` span is ordered when the node is well formed. -/
theorem spanWf_markup (m : Markup) (h : m.wf = true) :
    (Markup.span m).start ≤ (Markup.span m).stop := by
  simp only [Markup.wf, Bool.and_eq_true, decide_eq_true_eq] at h
  exact h.1.1

/-- A `PatternPart` span is ordered when the node is well formed. -/
theorem spanWf_patternPart (p : PatternPart) (h : p.wf = true) :
    (PatternPart.span p).start ≤ (PatternPart.span p).stop := by
  cases p with
  | text t => exact spanWf_text t h
  | escape e => exact spanWf_escape e h
  | expression e => exact spanWf_expression e h
  | markup m => exact spanWf_markup m h

/-- A `Pattern` span is ordered when the node is well formed. -/
theorem spanWf_pattern (p : Pattern) (h : p.wf = true) :
    (Pattern.span p).start ≤ (Pattern.span p).stop := by
  simp only [Pattern.wf, Bool.and_eq_true] at h
  obtain ⟨hparts, hchain⟩ := h
  cases hp : p.parts with
  | nil => simp [Pattern.span, hp]
  | cons a rest =>
    rw [hp] at hchain
    simp only [List.map] at hchain
    have h1 := chainFrom_start_le _ _ _ hchain
    simp only [lastStop] at h1
    rw [lastStop_map] at h1
    simp only [Pattern.span, hp, List.head?, getLast?_cons_eq]
    cases hgl : rest.getLast? with
    | none =>
      rw [hgl] at h1
      have hd : rest.getLastD a = a := by
        rw [List.getLastD_eq_getLast?, hgl]
        rfl
      rw [hd]
      exact h1
    | some b =>
      rw [hgl] at h1
      have hd : rest.getLastD a = b := by
        rw [List.getLastD_eq_getLast?, hgl]
        rfl
      rw [hd]
      exact h1

/-- A `QuotedPattern` span is ordered when the node is well formed. -/
theorem spanWf_quotedPattern (q : QuotedPattern) (h : q.wf = true) :
    (QuotedPattern.span q).start ≤ (QuotedPattern.span q).stop := by
  simp only [QuotedPattern.wf, Bool.and_eq_true, decide_eq_true_eq] at h
  exact h.1

/-- A `Key` span is ordered when the node is well formed. -/
theorem spanWf_key (k : Key) (h : k.wf = true) :
    (Key.span k).start ≤ (Key.span k).stop := by
  cases k with
  | literal l => exact spanWf_literal l h
  | star s => exact spanWf_star s h

/-- A `Variant` span is ordered when the node is well formed. -/
theorem spanWf_variant (v : Variant) (h : v.wf = true) :
    (Variant.span v).start ≤ (Variant.span v).stop := by
  simp only [Variant.wf, Bool.and_eq_true] at h
  obtain ⟨⟨hkeys, hpat⟩, hchain⟩ := h
  cases hk : v.keys with
  | nil =>
    rw [hk] at hchain
    simp only [List.map, List.nil_append, chainFrom, Bool.and_eq_true,
      decide_eq_true_eq] at hchain
    simp only [Variant.span, hk, List.head?]
    exact hchain.1.2
  | cons k ks =>
    rw [hk] at hchain
    simp only [List.map, List.cons_append] at hchain
    have h1 := chainFrom_start_le _ _ _ hchain
    simp only [lastStop] at h1
    rw [lastStop_append_singleton] at h1
    simp only [Variant.span, hk, List.head?]
    exact h1

/-- A `Matcher` span is ordered when the node is well formed. -/
theorem spanWf_matcher (m : Matcher) (h : m.wf = true) :
    (Matcher.span m).start ≤ (Matcher.span m).stop := by
  simp only [Matcher.wf, Bool.and_eq_true] at h
  obtain ⟨⟨hsel, hvar⟩, hchain⟩ := h
  have h1 := chainFrom_le _ _ hchain
  rw [lastStop_append, lastStop_map, lastStop_map] at h1
  show m.start ≤
    match m.variants.getLast? with
    | some last => last.span.stop
    | Option.none =>
      match m.selectors.getLast? with
      | some last => last.span.stop
      | Option.none => advStr m.start ['.', 'm', 'a', 't', 'c', 'h']
  cases hv : m.variants.getLast? with
  | some a =>
    rw [hv] at h1
    exact h1
  | none =>
    rw [hv] at h1
    cases hs : m.selectors.getLast? with
    | some b =>
      rw [hs] at h1
      exact h1
    | none =>
      show m.start ≤ m.start + utf8Len ['.', 'm', 'a', 't', 'c', 'h']
      omega

/-- A `ComplexMessageBody` span is ordered when the node is well formed. -/
theorem spanWf_complexMessageBody (b : ComplexMessageBody) (h : b.wf = true) :
    (ComplexMessageBody.span b).start ≤ (ComplexMessageBody.span b).stop := by
  cases b with
  | quotedPattern q => exact spanWf_quotedPattern q h
  | matcher m => exact spanWf_matcher m h

/-- An `InputDeclaration` span is ordered when the node is well formed. -/
theorem spanWf_inputDeclaration (d : InputDeclaration) (h : d.wf = true) :
    (InputDeclaration.span d).start ≤ (InputDeclaration.span d).stop := by
  simp only [InputDeclaration.wf, Bool.and_eq_true, decide_eq_true_eq] at h
  obtain ⟨hexpr, hle⟩ := h
  have h2 := spanWf_variableExpression d.expression hexpr
  show d.start ≤ d.expression.span.stop
  omega

/-- A `LocalDeclaration` span is ordered when the node is well formed. -/
theorem spanWf_localDeclaration (d : LocalDeclaration) (h : d.wf = true) :
    (LocalDeclaration.span d).start ≤ (LocalDeclaration.span d).stop := by
  simp only [LocalDeclaration.wf, Bool.and_eq_true, decide_eq_true_eq] at h
  obtain ⟨⟨hv, hexpr⟩, hle⟩ := h
  have h2 := spanWf_expression d.expression hexpr
  show d.start ≤ (Expression.span d.expression).stop
  omega

/-- A `ReservedStatement` span is ordered when the node is well formed. -/
theorem spanWf_reservedStatement (r : ReservedStatement) (h : r.wf = true) :
    (ReservedStatement.span r).start ≤ (ReservedStatement.span r).stop := by
  simp only [ReservedStatement.wf, Bool.and_eq_true] at h
  obtain ⟨⟨hbody, hexprs⟩, hchain⟩ := h
  have h1 := chainFrom_le _ _ hchain
  rw [lastStop_append, lastStop_map, lastStop_map] at h1
  show r.start ≤
    match r.expressions.getLast? with
    | some last => last.span.stop
    | Option.none =>
      match r.body.getLast? with
      | some last => last.span.stop
      | Option.none => advStr (advChar r.start '.') r.name
  cases he : r.expressions.getLast? with
  | some a =>
    rw [he] at h1
    exact h1
  | none =>
    rw [he] at h1
    cases hb : r.body.getLast? with
    | some b =>
      rw [hb] at h1
      exact h1
    | none =>
      show r.start ≤ r.start + csize '.' + utf8Len r.name
      omega

/-- A `Declaration` span is ordered when the node is well formed. -/
theorem spanWf_declaration (d : Declaration) (h : d.wf = true) :
    (Declaration.span d).start ≤ (Declaration.span d).stop := by
  cases d with
  | input v => exact spanWf_inputDeclaration v h
  | local_ v => exact spanWf_localDeclaration v h
  | reservedStatement v => exact spanWf_reservedStatement v h

/-- A `ComplexMessage` span is ordered when the node is well formed. -/
theorem spanWf_complexMessage (c : ComplexMessage) (h : c.wf = true) :
    (ComplexMessage.span c).start ≤ (ComplexMessage.span c).stop := by
  simp only [ComplexMessage.wf, Bool.and_eq_true] at h
  obtain ⟨hdecls, hbody⟩ := h
  have hb := spanWf_complexMessageBody c.body hbody
  cases hd : c.declarations with
  | nil => simp [ComplexMessage.span, hd]; exact hb
  | cons d ds =>
    simp only [ComplexMessage.span, hd, List.head?, getLast?_cons_eq]
    exact Nat.le_trans (Nat.min_le_right _ _)
      (Nat.le_trans hb (Nat.le_max_right _ _))

/-- A `Message` span is ordered when the message is well formed. -/
theorem spanWf_message (m : Message) (h : m.wf = true) :
    (Message.span m).start ≤ (Message.span m).stop := by
  cases m with
  | simple p => exact spanWf_pattern p h
  | complex c => exact spanWf_complexMessage c h

/-- Claim C1: the claim says the `_part` accessors are total (never panic,
never index out of bounds) for every consistent `Number` at any start
position, and return substrings of the raw slice.  The code refutes this:
`Number::slice` indexes `self.raw` with the absolute source offsets of the
computed sub-span without subtracting `self.start`, so for the perfectly
consistent `numC1` (raw `"-12.34e-5"`, 9 bytes, at offset 7) every accessor
indexes past the end of the raw slice and panics (modelled as
`Option.none`).  The first conjuncts record that `numC1`'s lengths are
consistent with its raw text; the last three evaluate the accessors at it. -/
theorem c1_number_accessors_panic_at_nonzero_start :
    (numC1.raw =
        ['-'] ++ ['1', '2'] ++ ['.'] ++ ['3', '4'] ++ ['e', '-'] ++ ['5'] ∧
      numC1.is_negative = true ∧
      numC1.integral_len = utf8Len ['1', '2'] ∧
      numC1.fractional_len = some (utf8Len ['3', '4']) ∧
      numC1.exponent_len = some (ExponentSign.minus, utf8Len ['5'])) ∧
    numC1.integral_part = Option.none ∧
    numC1.fractional_part = Option.none ∧
    numC1.exponent_part = Option.none := by decide

/-- Claim C3, counterexample: with the claim's `fractional_len = Some(3)`
the fractional accessor returns `"34e"`, not `"34"` (already at start 0,
one of the positions the claim quantifies over); and even with the
repaired length 2, at start offset 5 (another quantified position) the
integral accessor returns `"e-"`, not `"12"`, because `slice` indexes the
raw slice with absolute offsets. -/
theorem c3_counterexample :
    numC3len3.fractional_part ≠ some (some ['3', '4']) ∧
    numC3start5.integral_part ≠ some ['1', '2'] := by decide

/-- Claim C3 (amended): for the `Number` with raw `"-12.34e-5"`,
`is_negative`, `integral_len = 2`, `fractional_len = Some(2)`,
`exponent_len = Some((Minus, 1))`, at start position 0:
`integral_part() == "12"`, `fractional_part() == Some("34")`,
`exponent_part() == Some((Minus, "5"))`, and sign + integral + "." +
fractional + "e" + exponent-sign-char + exponent reconstructs the raw
text exactly. -/
theorem c3_number_round_trip :
    numC3ok.integral_part = some ['1', '2'] ∧
    numC3ok.fractional_part = some (some ['3', '4']) ∧
    numC3ok.exponent_part = some (some (ExponentSign.minus, ['5'])) ∧
    ['-'] ++ ['1', '2'] ++ ['.'] ++ ['3', '4'] ++ ['e'] ++ ['-'] ++ ['5'] =
      numC3ok.raw := by decide

/-- Claim C2, counterexample: visiting `PatternPart::Text(t)` does *not*
invoke the same callback as visiting `t` directly — the `ast_enum!`
`apply_visitor` fires the wrapper's own dedicated `visit_pattern_part`
callback, not `visit_text`. -/
theorem c2_counterexample :
    (PatternPart.text textA).applyVisitorEvent ≠ textA.applyVisitorEvent := by
  decide

/-- Claim C2 (amended): for every wrapper enum, `apply_visitor` invokes
the wrapper's *own* dedicated callback (e.g. `visit_pattern_part`) with
the wrapper value, and it is `apply_visitor_to_children` that forwards to
the contained variant's callback — each wrapper generates one visitor
event of its own, immediately followed (via its children) by the
variant's. -/
theorem c2_wrapper_dispatch :
    (∀ t : Text, (PatternPart.text t).applyVisitorEvent =
        Event.visitPatternPart (.text t) ∧
      (PatternPart.text t).childEvents = [Event.visitText t]) ∧
    (∀ e : Escape, (PatternPart.escape e).applyVisitorEvent =
        Event.visitPatternPart (.escape e) ∧
      (PatternPart.escape e).childEvents = [Event.visitEscape e]) ∧
    (∀ e : Expression, (PatternPart.expression e).applyVisitorEvent =
        Event.visitPatternPart (.expression e) ∧
      (PatternPart.expression e).childEvents = [Event.visitExpression e]) ∧
    (∀ m : Markup, (PatternPart.markup m).applyVisitorEvent =
        Event.visitPatternPart (.markup m) ∧
      (PatternPart.markup m).childEvents = [Event.visitMarkup m]) ∧
    (∀ e : LiteralExpression,
      (Expression.literalExpression e).applyVisitorEvent =
        Event.visitExpression (.literalExpression e) ∧
      (Expression.literalExpression e).childEvents =
        [Event.visitLiteralExpression e]) ∧
    (∀ e : VariableExpression,
      (Expression.variableExpression e).applyVisitorEvent =
        Event.visitExpression (.variableExpression e) ∧
      (Expression.variableExpression e).childEvents =
        [Event.visitVariableExpression e]) ∧
    (∀ e : AnnotationExpression,
      (Expression.annotationExpression e).applyVisitorEvent =
        Event.visitExpression (.annotationExpression e) ∧
      (Expression.annotationExpression e).childEvents =
        [Event.visitAnnotationExpression e]) ∧
    (∀ f : FunctionNode, (AnnotationNode.function f).applyVisitorEvent =
        Event.visitAnnotationNode (.function f) ∧
      (AnnotationNode.function f).childEvents = [Event.visitFunction f]) ∧
    (∀ p : PrivateUseAnnotationNode,
      (AnnotationNode.privateUse p).applyVisitorEvent =
        Event.visitAnnotationNode (.privateUse p) ∧
      (AnnotationNode.privateUse p).childEvents =
        [Event.visitPrivateUseAnnotationNode p]) ∧
    (∀ r : ReservedAnnotationNode,
      (AnnotationNode.reserved r).applyVisitorEvent =
        Event.visitAnnotationNode (.reserved r) ∧
      (AnnotationNode.reserved r).childEvents =
        [Event.visitReservedAnnotationNode r]) ∧
    (∀ l : Literal, (LiteralOrVariable.literal l).applyVisitorEvent =
        Event.visitLiteralOrVariable (.literal l) ∧
      (LiteralOrVariable.literal l).childEvents = [Event.visitLiteral l]) ∧
    (∀ v : Variable, (LiteralOrVariable.variable_ v).applyVisitorEvent =
        Event.visitLiteralOrVariable (.variable_ v) ∧
      (LiteralOrVariable.variable_ v).childEvents = [Event.visitVariable v]) ∧
    (∀ t : Text, (ReservedBodyPart.text t).applyVisitorEvent =
        Event.visitReservedBodyPart (.text t) ∧
      (ReservedBodyPart.text t).childEvents = [Event.visitText t]) ∧
    (∀ e : Escape, (ReservedBodyPart.escape e).applyVisitorEvent =
        Event.visitReservedBodyPart (.escape e) ∧
      (ReservedBodyPart.escape e).childEvents = [Event.visitEscape e]) ∧
    (∀ q : Quoted, (ReservedBodyPart.quoted q).applyVisitorEvent =
        Event.visitReservedBodyPart (.quoted q) ∧
      (ReservedBodyPart.quoted q).childEvents = [Event.visitQuoted q]) ∧
    (∀ q : Quoted, (Literal.quoted q).applyVisitorEvent =
        Event.visitLiteral (.quoted q) ∧
      (Literal.quoted q).childEvents = [Event.visitQuoted q]) ∧
    (∀ t : Text, (Literal.text t).applyVisitorEvent =
        Event.visitLiteral (.text t) ∧
      (Literal.text t).childEvents = [Event.visitText t]) ∧
    (∀ n : Number, (Literal.number n).applyVisitorEvent =
        Event.visitLiteral (.number n) ∧
      (Literal.number n).childEvents = [Event.visitNumber n]) ∧
    (∀ t : Text, (QuotedPart.text t).applyVisitorEvent =
        Event.visitQuotedPart (.text t) ∧
      (QuotedPart.text t).childEvents = [Event.visitText t]) ∧
    (∀ e : Escape, (QuotedPart.escape e).applyVisitorEvent =
        Event.visitQuotedPart (.escape e) ∧
      (QuotedPart.escape e).childEvents = [Event.visitEscape e]) ∧
    (∀ q : QuotedPattern,
      (ComplexMessageBody.quotedPattern q).applyVisitorEvent =
        Event.visitComplexMessageBody (.quotedPattern q) ∧
      (ComplexMessageBody.quotedPattern q).childEvents =
        [Event.visitQuotedPattern q]) ∧
    (∀ m : Matcher, (ComplexMessageBody.matcher m).applyVisitorEvent =
        Event.visitComplexMessageBody (.matcher m) ∧
      (ComplexMessageBody.matcher m).childEvents = [Event.visitMatcher m]) ∧
    (∀ d : InputDeclaration, (Declaration.input d).applyVisitorEvent =
        Event.visitDeclaration (.input d) ∧
      (Declaration.input d).childEvents = [Event.visitInputDeclaration d]) ∧
    (∀ d : LocalDeclaration, (Declaration.local_ d).applyVisitorEvent =
        Event.visitDeclaration (.local_ d) ∧
      (Declaration.local_ d).childEvents = [Event.visitLocalDeclaration d]) ∧
    (∀ d : ReservedStatement,
      (Declaration.reservedStatement d).applyVisitorEvent =
        Event.visitDeclaration (.reservedStatement d) ∧
      (Declaration.reservedStatement d).childEvents =
        [Event.visitReservedStatement d]) ∧
    (∀ l : Literal, (Key.literal l).applyVisitorEvent =
        Event.visitKey (.literal l) ∧
      (Key.literal l).childEvents = [Event.visitLiteral l]) ∧
    (∀ s : StarKey, (Key.star s).applyVisitorEvent =
        Event.visitKey (.star s) ∧
      (Key.star s).childEvents = [Event.visitStarKey s]) := by
  exact ⟨fun _ => ⟨rfl, rfl⟩, fun _ => ⟨rfl, rfl⟩, fun _ => ⟨rfl, rfl⟩,
    fun _ => ⟨rfl, rfl⟩, fun _ => ⟨rfl, rfl⟩, fun _ => ⟨rfl, rfl⟩,
    fun _ => ⟨rfl, rfl⟩, fun _ => ⟨rfl, rfl⟩, fun _ => ⟨rfl, rfl⟩,
    fun _ => ⟨rfl, rfl⟩, fun _ => ⟨rfl, rfl⟩, fun _ => ⟨rfl, rfl⟩,
    fun _ => ⟨rfl, rfl⟩, fun _ => ⟨rfl, rfl⟩, fun _ => ⟨rfl, rfl⟩,
    fun _ => ⟨rfl, rfl⟩, fun _ => ⟨rfl, rfl⟩, fun _ => ⟨rfl, rfl⟩,
    fun _ => ⟨rfl, rfl⟩, fun _ => ⟨rfl, rfl⟩, fun _ => ⟨rfl, rfl⟩,
    fun _ => ⟨rfl, rfl⟩, fun _ => ⟨rfl, rfl⟩, fun _ => ⟨rfl, rfl⟩,
    fun _ => ⟨rfl, rfl⟩, fun _ => ⟨rfl, rfl⟩, fun _ => ⟨rfl, rfl⟩⟩

/-- Claim C5: starting `apply_visitor` on a `Message` with the visitor
that, at every callback, recursively calls `apply_visitor_to_children`,
produces exactly the pre-order (left-to-right, node before children)
flattening of the message's data-model tree — every node of the tree is
visited exactly once, in source order. -/
theorem c5_visitor_preorder (m : Message) : m.trace = m.toTree.pre := by
  cases m with
  | simple p => exact trace_pre_pattern p
  | complex c => exact trace_pre_complexMessage c

/-- Claim C4, counterexample: `fnC4` is a composite node with ≥ 1 child
whose first child is its identifier, yet its span starts at the node's own
stored start (0, the `:` sigil), not at the first child's span start (1) —
so `n.span().start == first_child.span().start` fails. -/
theorem c4_counterexample :
    (FunctionNode.span fnC4).start ≠ (Identifier.span fnC4.id).start := by
  decide

/-- Claim C4 (amended): the first/last-child span rule holds exactly for
the composites that derive their span purely from children — `Pattern`
(nonempty), `FnOrMarkupOption` (children: key then value) and `Variant`
(children: keys then quoted pattern) — while composites with a stored
start position (such as `Function`, `Matcher`, `ReservedStatement`, the
declarations and the annotations) anchor their span start at that stored
start, and `ComplexMessage` takes min/max of its declarations and body. -/
theorem c4_child_containment :
    (∀ (pp : PatternPart) (pps : List PatternPart),
      (Pattern.span ⟨pp :: pps⟩).start = (PatternPart.span pp).start ∧
      (Pattern.span ⟨pp :: pps⟩).stop =
        (PatternPart.span (pps.getLastD pp)).stop) ∧
    (∀ o : FnOrMarkupOption,
      (FnOrMarkupOption.span o).start = (Identifier.span o.key).start ∧
      (FnOrMarkupOption.span o).stop = (LiteralOrVariable.span o.value).stop) ∧
    (∀ v : Variant,
      (Variant.span v).start =
        ((v.keys.map Key.span).headD v.pattern.span).start ∧
      (Variant.span v).stop = v.pattern.span.stop) := by
  refine ⟨fun pp pps => ?_, fun o => ⟨rfl, rfl⟩, fun v => ?_⟩
  · simp [Pattern.span, List.head?, getLast?_cons_eq]
  · cases hk : v.keys <;> simp [Variant.span, List.head?, hk]

/-- Claim C6: an empty `Matcher` built at position `P` spans
`P .. P + len(".match")` (6 bytes), and an empty `PrivateUseAnnotation`
with sigil `'^'` at `P` spans `P .. P + 1`. -/
theorem c6_empty_fallbacks (P : Nat) :
    Matcher.span ⟨P, [], []⟩ = ⟨P, P + 6⟩ ∧
    PrivateUseAnnotationNode.span ⟨P, '^', []⟩ = ⟨P, P + 1⟩ := by
  have h6 : utf8Len ['.', 'm', 'a', 't', 'c', 'h'] = 6 := by decide
  have h1 : csize '^' = 1 := by decide
  constructor
  · simp [Matcher.span, advStr, h6]
  · simp [PrivateUseAnnotationNode.span, advChar, h1]

/-- Claim C7: a `Function` node with an empty options list, whose
identifier sits directly after the `:` sigil at the node's start, has
`span() = start .. start + <byte length of the introducing marker>` — the
span covers exactly the introducing `:identifier`, nothing more. -/
theorem c7_function_empty_options (f : FunctionNode)
    (hopts : f.options = [])
    (hid : f.id.start = f.start + csize ':') :
    FunctionNode.span f = ⟨f.start, f.start + functionIntroducerLen f⟩ := by
  have hgl : f.options.getLast? = Option.none := by rw [hopts]; rfl
  cases hns : f.id.namespace_ <;>
    simp only [FunctionNode.span, hgl, Identifier.span, functionIntroducerLen,
      advStr, advChar, hns, Span.mk.injEq, true_and] <;>
    omega

/-- Claim C7, witness: the theorem applied at `fnC7`, discharging both
hypotheses. -/
theorem c7_witness :
    FunctionNode.span fnC7 = ⟨fnC7.start, fnC7.start + functionIntroducerLen fnC7⟩ :=
  c7_function_empty_options fnC7 rfl (by decide)

/-- Claim C8: for every node the external parser can construct — modelled
by the per-type well-formedness predicates `wf`, which say that stored
spans are ordered and children sit in source order — `span().start ≤
span().end`, for every node type of the catalog. -/
theorem c8_span_start_le_stop :
    (∀ m : Message, m.wf = true →
      (Message.span m).start ≤ (Message.span m).stop) ∧
    (∀ p : Pattern, p.wf = true →
      (Pattern.span p).start ≤ (Pattern.span p).stop) ∧
    (∀ p : PatternPart, p.wf = true →
      (PatternPart.span p).start ≤ (PatternPart.span p).stop) ∧
    (∀ t : Text, t.wf = true →
      (Text.span t).start ≤ (Text.span t).stop) ∧
    (∀ e : Escape, e.wf = true →
      (Escape.span e).start ≤ (Escape.span e).stop) ∧
    (∀ e : Expression, e.wf = true →
      (Expression.span e).start ≤ (Expression.span e).stop) ∧
    (∀ e : LiteralExpression, e.wf = true →
      (LiteralExpression.span e).start ≤ (LiteralExpression.span e).stop) ∧
    (∀ e : VariableExpression, e.wf = true →
      (VariableExpression.span e).start ≤ (VariableExpression.span e).stop) ∧
    (∀ e : AnnotationExpression, e.wf = true →
      (AnnotationExpression.span e).start ≤ (AnnotationExpression.span e).stop) ∧
    (∀ v : Variable, v.wf = true →
      (Variable.span v).start ≤ (Variable.span v).stop) ∧
    (∀ a : AnnotationNode, a.wf = true →
      (AnnotationNode.span a).start ≤ (AnnotationNode.span a).stop) ∧
    (∀ i : Identifier, i.wf = true →
      (Identifier.span i).start ≤ (Identifier.span i).stop) ∧
    (∀ f : FunctionNode, f.wf = true →
      (FunctionNode.span f).start ≤ (FunctionNode.span f).stop) ∧
    (∀ o : FnOrMarkupOption, o.wf = true →
      (FnOrMarkupOption.span o).start ≤ (FnOrMarkupOption.span o).stop) ∧
    (∀ a : Attribute, a.wf = true →
      (Attribute.span a).start ≤ (Attribute.span a).stop) ∧
    (∀ l : LiteralOrVariable, l.wf = true →
      (LiteralOrVariable.span l).start ≤ (LiteralOrVariable.span l).stop) ∧
    (∀ p : PrivateUseAnnotationNode, p.wf = true →
      (PrivateUseAnnotationNode.span p).start ≤
        (PrivateUseAnnotationNode.span p).stop) ∧
    (∀ r : ReservedAnnotationNode, r.wf = true →
      (ReservedAnnotationNode.span r).start ≤
        (ReservedAnnotationNode.span r).stop) ∧
    (∀ r : ReservedBodyPart, r.wf = true →
      (ReservedBodyPart.span r).start ≤ (ReservedBodyPart.span r).stop) ∧
    (∀ l : Literal, l.wf = true →
      (Literal.span l).start ≤ (Literal.span l).stop) ∧
    (∀ q : Quoted, q.wf = true →
      (Quoted.span q).start ≤ (Quoted.span q).stop) ∧
    (∀ q : QuotedPart, q.wf = true →
      (QuotedPart.span q).start ≤ (QuotedPart.span q).stop) ∧
    (∀ n : Number, n.wf = true →
      (Number.span n).start ≤ (Number.span n).stop) ∧
    (∀ m : Markup, m.wf = true →
      (Markup.span m).start ≤ (Markup.span m).stop) ∧
    (∀ c : ComplexMessage, c.wf = true →
      (ComplexMessage.span c).start ≤ (ComplexMessage.span c).stop) ∧
    (∀ d : Declaration, d.wf = true →
      (Declaration.span d).start ≤ (Declaration.span d).stop) ∧
    (∀ d : InputDeclaration, d.wf = true →
      (InputDeclaration.span d).start ≤ (InputDeclaration.span d).stop) ∧
    (∀ d : LocalDeclaration, d.wf = true →
      (LocalDeclaration.span d).start ≤ (LocalDeclaration.span d).stop) ∧
    (∀ r : ReservedStatement, r.wf = true →
      (ReservedStatement.span r).start ≤ (ReservedStatement.span r).stop) ∧
    (∀ b : ComplexMessageBody, b.wf = true →
      (ComplexMessageBody.span b).start ≤ (ComplexMessageBody.span b).stop) ∧
    (∀ q : QuotedPattern, q.wf = true →
      (QuotedPattern.span q).start ≤ (QuotedPattern.span q).stop) ∧
    (∀ m : Matcher, m.wf = true →
      (Matcher.span m).start ≤ (Matcher.span m).stop) ∧
    (∀ v : Variant, v.wf = true →
      (Variant.span v).start ≤ (Variant.span v).stop) ∧
    (∀ k : Key, k.wf = true →
      (Key.span k).start ≤ (Key.span k).stop) ∧
    (∀ s : StarKey, s.wf = true →
      (StarKey.span s).start ≤ (StarKey.span s).stop) :=
  ⟨spanWf_message, spanWf_pattern, spanWf_patternPart, spanWf_text,
    spanWf_escape, spanWf_expression, spanWf_literalExpression,
    spanWf_variableExpression, spanWf_annotationExpression, spanWf_variable,
    spanWf_annotationNode, spanWf_identifier, spanWf_function,
    spanWf_fnOrMarkupOption, spanWf_attribute, spanWf_literalOrVariable,
    spanWf_privateUse, spanWf_reservedAnn, spanWf_reservedBodyPart,
    spanWf_literal, spanWf_quoted, spanWf_quotedPart, spanWf_number,
    spanWf_markup, spanWf_complexMessage, spanWf_declaration,
    spanWf_inputDeclaration, spanWf_localDeclaration,
    spanWf_reservedStatement, spanWf_complexMessageBody,
    spanWf_quotedPattern, spanWf_matcher, spanWf_variant, spanWf_key,
    spanWf_star⟩

/-- Claim C8, witness: the `Message` conjunct of the theorem applied to
the concrete well-formed `msgC8`, discharging the well-formedness
hypothesis by evaluation. -/
theorem c8_witness :
    (Message.span msgC8).start ≤ (Message.span msgC8).stop :=
  c8_span_start_le_stop.1 msgC8 (by decide)

/-- Claim C9: a `Pattern` with zero parts has `span().start == span().end`
and both positions equal the dummy sentinel. -/
theorem c9_empty_pattern_dummy :
    Pattern.span ⟨[]⟩ = ⟨Location.dummy, Location.dummy⟩ ∧
    (Pattern.span ⟨[]⟩).start = (Pattern.span ⟨[]⟩).stop := by
  exact ⟨rfl, rfl⟩

/-- Claim C10: the partially-empty fallbacks, in the code's fixed
precedence order: a `Matcher` with no variants but ≥ 1 selector ends at
the last selector's span end; a `ReservedStatement` with no expressions
but a nonempty body ends at the last body part's span end, and with both
empty ends at its start advanced past `.` and its name; a `Variant` with
no keys starts at its quoted pattern's span start. -/
theorem c10_partial_fallbacks :
    (∀ (m : Matcher) (s : Expression) (ss : List Expression),
      m.variants = [] → m.selectors = s :: ss →
      (Matcher.span m).stop = (Expression.span (ss.getLastD s)).stop) ∧
    (∀ (r : ReservedStatement) (b : ReservedBodyPart)
        (bs : List ReservedBodyPart),
      r.expressions = [] → r.body = b :: bs →
      (ReservedStatement.span r).stop =
        (ReservedBodyPart.span (bs.getLastD b)).stop) ∧
    (∀ r : ReservedStatement, r.expressions = [] → r.body = [] →
      (ReservedStatement.span r).stop = r.start + csize '.' + utf8Len r.name) ∧
    (∀ v : Variant, v.keys = [] →
      (Variant.span v).start = v.pattern.span.start) := by
  refine ⟨fun m s ss hv hs => ?_, fun r b bs he hb => ?_,
    fun r he hb => ?_, fun v hk => ?_⟩
  · have h1 : m.variants.getLast? = Option.none := by rw [hv]; rfl
    have h2 : m.selectors.getLast? = some (ss.getLastD s) := by
      rw [hs]; exact getLast?_cons_eq s ss
    simp [Matcher.span, h1, h2]
  · have h1 : r.expressions.getLast? = Option.none := by rw [he]; rfl
    have h2 : r.body.getLast? = some (bs.getLastD b) := by
      rw [hb]; exact getLast?_cons_eq b bs
    simp [ReservedStatement.span, h1, h2]
  · have h1 : r.expressions.getLast? = Option.none := by rw [he]; rfl
    have h2 : r.body.getLast? = Option.none := by rw [hb]; rfl
    simp [ReservedStatement.span, h1, h2, advStr, advChar]
  · have h1 : v.keys.head? = Option.none := by rw [hk]; rfl
    simp [Variant.span, h1]

/-- Claim C10, witness: all four conjuncts of the theorem applied at
concrete nodes, discharging every hypothesis. -/
theorem c10_witness :
    (Matcher.span matcherC10).stop =
      (Expression.span (([] : List Expression).getLastD exprC10)).stop ∧
    (ReservedStatement.span rsBodyC10).stop =
      (ReservedBodyPart.span
        (([] : List ReservedBodyPart).getLastD (.text ⟨3, ['b']⟩))).stop ∧
    (ReservedStatement.span rsEmptyC10).stop =
      rsEmptyC10.start + csize '.' + utf8Len rsEmptyC10.name ∧
    (Variant.span variantC10).start = variantC10.pattern.span.start :=
  ⟨c10_partial_fallbacks.1 matcherC10 exprC10 [] rfl rfl,
    c10_partial_fallbacks.2.1 rsBodyC10 (.text ⟨3, ['b']⟩) [] rfl rfl,
    c10_partial_fallbacks.2.2.1 rsEmptyC10 rfl rfl,
    c10_partial_fallbacks.2.2.2 variantC10 rfl⟩
